import Mathlib

/-!
Verification development for the Gipity Scaffold image asset generator
(`gipity-scripts/gipity-image-resizer.py`).

The script is shallowly embedded below.  Pixel rasters are represented as a
free algebra of the deterministic Pillow operations the script performs
(decode, convert to RGBA, thumbnail, stretch resize, paste onto a fresh
transparent canvas), so that file equality in the model corresponds to
byte-for-byte equality of the deterministically encoded outputs.  The
filesystem is an explicit state threaded through every operation, together
with an environment oracle saying which paths can be opened/decoded and
which paths can be written; a raised Python exception is modelled as an
`Except` error, and `try/except` blocks as explicit handlers.

Numeric fidelity notes:
* Pillow's `Image.thumbnail` computes the fitted size from the aspect
  ratio `width / height`; it is modelled here with exact arithmetic, the
  rational comparisons written in cross-multiplied integer form so that
  the kernel can evaluate them.  Image dimensions are assumed positive
  (Pillow cannot decode an image with a zero dimension).
* `int(size * 0.7)` in the adaptive-icon branch is genuine double
  arithmetic and is modelled exactly: `int07` multiplies by the IEEE-754
  double nearest to 0.7 (namely 3152519739159347 / 2^52), rounds the
  product to the nearest double (ties to even) and truncates.
* Directory creation (`os.makedirs(..., exist_ok=True)`) is modelled as
  infallible; file writes and image decodes are the fallible operations.
-/

/-- A width/height pair, the `size` tuples of the script. -/
structure Sz where
  w : ℕ
  h : ℕ
deriving DecidableEq, Repr

/-- A pixel-aligned rectangle inside a canvas: offset `(x, y)`, extent `(w, h)`. -/
structure Rect where
  x : ℕ
  y : ℕ
  w : ℕ
  h : ℕ
deriving DecidableEq, Repr

/-- Pillow `Image.thumbnail` shrink along the width, for an image `w × h`
and a height bound `y`: `round_aspect(y * aspect, key=lambda n: abs(aspect - n / y))`
with `aspect = w / h`, i.e. `max(min(floor, ceil, key), 1)` where floor/ceil
are of the rational `y * w / h` and the keys are compared after scaling by
the positive constant `h * y`. -/
def fitWidth (w h y : ℕ) : ℕ :=
  let f := y * w / h
  let c := (y * w + h - 1) / h
  let kf := ((w * y : ℤ) - f * h).natAbs
  let kc := ((w * y : ℤ) - c * h).natAbs
  max (if kf ≤ kc then f else c) 1

/-- Pillow `Image.thumbnail` shrink along the height, for an image `w × h`
and a width bound `x`:
`round_aspect(x / aspect, key=lambda n: 0 if n == 0 else abs(aspect - x / n))`,
i.e. `max(min(floor, ceil, key), 1)` where floor/ceil are of the rational
`x * h / w`; a zero candidate has key 0 (so floor wins), otherwise the keys
are compared after scaling by the positive constant `h * floor * ceil`. -/
def fitHeight (w h x : ℕ) : ℕ :=
  let f := x * h / w
  let c := (x * h + w - 1) / w
  let kf := ((w * f : ℤ) - x * h).natAbs * c
  let kc := ((w * c : ℤ) - x * h).natAbs * f
  max (if f = 0 then f else if kf ≤ kc then f else c) 1

/-- The size produced by Pillow's `Image.thumbnail((x, y))` on an image of
size `(imgW, imgH)`: if the image already fits inside the box it is left
unchanged (never upscaled); otherwise it is shrunk preserving the aspect
ratio, pinning one axis to its bound.  The branch test
`x / y >= aspect` is written cross-multiplied as `imgW * y ≤ x * imgH`. -/
def thumbSize (imgW imgH x y : ℕ) : Sz :=
  if imgW ≤ x ∧ imgH ≤ y then ⟨imgW, imgH⟩
  else if imgW * y ≤ x * imgH then
    ⟨fitWidth imgW imgH y, y⟩
  else
    ⟨x, fitHeight imgW imgH x⟩

/-- Mantissa-numerator of the IEEE-754 double closest to 0.7:
`0.7 = 3152519739159347 / 2^52` in double precision. -/
def m07 : ℕ := 3152519739159347

/-- Round `p / 2^s` to the nearest integer, ties to even. -/
def rne (p s : ℕ) : ℕ :=
  let q := p / 2 ^ s
  let r := p % 2 ^ s
  if 2 * r < 2 ^ s then q
  else if 2 ^ s < 2 * r then q + 1
  else if q % 2 = 0 then q else q + 1

/-- Binary length of `n`, with explicit fuel so the kernel can evaluate it
(structural recursion on the fuel); correct whenever `n < 2 ^ fuel`. -/
def bitlen : ℕ → ℕ → ℕ
  | 0, _ => 0
  | fuel + 1, n => if n = 0 then 0 else bitlen fuel (n / 2) + 1

/-- `int(n * 0.7)` as Python computes it: the exact product `n * m07 / 2^52`
(with `m07 / 2^52` the double nearest 0.7) is rounded to the nearest double
(53-bit significand, ties to even) and then truncated.  The fuel 256 makes
the bit-length computation exact for every `n` below `2^200`, far beyond
any dimension Pillow can represent. -/
def int07 (n : ℕ) : ℕ :=
  if n = 0 then 0
  else
    let p := n * m07
    let bits := bitlen 256 p
    if bits ≤ 53 then p / 2 ^ 52
    else
      let s := bits - 53
      (rne p s * 2 ^ s) / 2 ^ 52

/-- JSON-like values, for the web manifest and the Contents.json files. -/
inductive JVal
  | str (s : String)
  | num (n : ℤ)
  | arr (xs : List JVal)
  | obj (fields : List (String × JVal))

/-- Pixel rasters as a free algebra over the deterministic Pillow
operations performed by the script.  `srcI id w h alpha` is a decoded
source image (`id` abstracts its pixel content, `alpha` whether its mode
carries an alpha channel); the other constructors are the operations
`resize_image` performs.  The Pillow operations and the PNG encoder are
deterministic functions of their inputs, so equality of terms models byte
equality of the encoded outputs. -/
inductive Img
  | srcI (id w h : ℕ) (alpha : Bool)
  | rgbaOf (i : Img)                  -- `convert('RGBA')` / `copy()`
  | thumbI (i : Img) (bw bh : ℕ)      -- `img.thumbnail((bw, bh), LANCZOS)`
  | stretchI (i : Img) (w h : ℕ)      -- `img.resize((w, h), LANCZOS)`
  | padI (i : Img) (w h x y : ℕ)      -- transparent canvas `w×h`, paste at `(x, y)`
  | blankI (w h : ℕ)                  -- `Image.new('RGBA', (w, h), (0, 0, 0, 0))`
deriving DecidableEq

/-- The pixel dimensions of an image term. -/
def Img.size : Img → Sz
  | .srcI _ w h _ => ⟨w, h⟩
  | .rgbaOf i => i.size
  | .thumbI i bw bh => thumbSize i.size.w i.size.h bw bh
  | .stretchI _ w h => ⟨w, h⟩
  | .padI _ w h _ _ => ⟨w, h⟩
  | .blankI w h => ⟨w, h⟩

/-- Whether the pixel mode of an image term carries an alpha channel:
`convert('RGBA')`, a fresh RGBA canvas and pasting onto one always do;
thumbnail and resize keep the mode of their input. -/
def Img.alphaB : Img → Bool
  | .srcI _ _ _ a => a
  | .rgbaOf _ => true
  | .thumbI i _ _ => i.alphaB
  | .stretchI i _ _ => i.alphaB
  | .padI _ _ _ _ _ => true
  | .blankI _ _ => true

/-- Bounding rectangle of the (possibly) non-transparent content of an
image term, for a source whose content spans its full frame: scaling maps
the full frame onto the full scaled frame, and pasting offsets it inside
the canvas. -/
def Img.contentRect : Img → Rect
  | .srcI _ w h _ => ⟨0, 0, w, h⟩
  | .rgbaOf i => i.contentRect
  | .thumbI i bw bh => ⟨0, 0, (thumbSize i.size.w i.size.h bw bh).w,
      (thumbSize i.size.w i.size.h bw bh).h⟩
  | .stretchI _ w h => ⟨0, 0, w, h⟩
  | .padI i _ _ x y => ⟨x + i.contentRect.x, y + i.contentRect.y,
      i.contentRect.w, i.contentRect.h⟩
  | .blankI _ _ => ⟨0, 0, 0, 0⟩

/-- A file on disk.  `png` is a Pillow-encoded raster (the term determines
the bytes, since the encoder is deterministic); `jsonF` a JSON document;
`xmlF` a text file; `raw` an arbitrary or corrupt byte string that Pillow
cannot decode. -/
inductive File
  | png (img : Img)
  | jsonF (j : JVal)
  | xmlF (s : String)
  | raw (id : ℕ)

/-- `Image.open`: succeeds exactly on raster image files, yielding the
decoded raster. -/
def File.dec : File → Option Img
  | .png i => some i
  | _ => none

/-- Whether a file's pixel data carries an alpha channel. -/
def File.hasAlpha : File → Bool
  | .png i => i.alphaB
  | _ => false

/-- The filesystem contents outside the run: a partial map from path to file. -/
def FS : Type := String → Option File

/-- Log messages the script prints for failures and warnings. -/
inductive LogMsg
  | errorCreating (dst : String)        -- `❌ Error creating {output_path}: ...`
  | errorCopyAssets                     -- `❌ Error copying icon to assets: ...`
  | warnIconMaster                      -- icon-master.png not found (web logos)
  | missingMasters (ps : List String)   -- `❌ Missing required master images: ...`
  | missingSplashMaster (p : String)    -- `❌ Master image not found: {path}`
  | warnSplashIconMaster                -- splash-icon master not found
  | warnManifestMissing                 -- manifest.json not found - skipping update
  | errorUpdatingManifest               -- `❌ Error updating manifest: ...`
deriving DecidableEq

/-- Run state: the base filesystem, the writes performed so far (most
recent first, so a later write to a path shadows an earlier one) and the
failure/warning log. -/
structure St where
  base : FS
  writes : List (String × File)
  log : List LogMsg

/-- Read a path: the most recent write to it if any, else the base filesystem. -/
def St.read (s : St) (p : String) : Option File :=
  match s.writes.find? (fun e => e.1 == p) with
  | some e => some e.2
  | none => s.base p

/-- Write (create or overwrite) a file. -/
def St.write (s : St) (p : String) (f : File) : St :=
  { s with writes := (p, f) :: s.writes }

/-- Append a log message. -/
def St.logMsg (s : St) (m : LogMsg) : St :=
  { s with log := s.log ++ [m] }

/-- `os.path.exists`. -/
def St.existsP (s : St) (p : String) : Bool :=
  (s.read p).isSome

/-- Failure oracle: which source paths Pillow can open and decode without
raising, and which destination paths can be written without an OS error. -/
structure Env where
  decodeOk : String → Bool
  writeOk : String → Bool

/-- The error-free environment. -/
def allOk : Env := ⟨fun _ => true, fun _ => true⟩

/-- A raised Python exception (OSError, UnidentifiedImageError, ...),
carrying the path it was raised for. -/
inductive PyErr
  | ioError (p : String)
deriving DecidableEq

/-- The raster built by `resize_image` on its non-copy path (lines
126–144): convert to RGBA, then either thumbnail into the canvas (into a
70%-scaled box for adaptive icons) and paste centred on a transparent
canvas, or stretch to the exact size. -/
def resizedImg (source_img : Img) (sz : Sz) (maintain_aspect adaptive_icon_safe_margin : Bool) :
    Img :=
  -- img = source_img.convert('RGBA') if ... else source_img.copy()
  let img := Img.rgbaOf source_img
  if maintain_aspect then
    -- 70% safe margin for adaptive icons (line 130), else the full canvas
    let box := if adaptive_icon_safe_margin then Sz.mk (int07 sz.w) (int07 sz.h) else sz
    let t := Img.thumbI img box.w box.h
    -- new RGBA canvas, paste centred at ((w - iw) // 2, (h - ih) // 2)
    Img.padI t sz.w sz.h ((sz.w - t.size.w) / 2) ((sz.h - t.size.h) / 2)
  else Img.stretchI img sz.w sz.h                  -- stretch to exact size

/-- The body of `resize_image` — the code inside its `try:` block
(gipity-image-resizer.py lines 112–150).  Errors escape as
`Except.error`; the wrapper below catches them. -/
def resize_image_try (env : Env) (st : St) (source_path output_path : String)
    (size : Option Sz) (maintain_aspect adaptive_icon_safe_margin : Bool) :
    Except PyErr (Bool × St) :=
  match st.read source_path with
  | none => .error (.ioError source_path)          -- Image.open: no such file
  | some f =>
    if env.decodeOk source_path = false then .error (.ioError source_path)
    else
      match f.dec with
      | none => .error (.ioError source_path)      -- Image.open: cannot identify image file
      | some source_img =>
        -- if size is None: size = source_img.size
        let sz := size.getD source_img.size
        -- direct copy optimization for exact size matches (line 119)
        if source_img.size = sz then
          if env.writeOk output_path then .ok (true, st.write output_path f)
          else .error (.ioError output_path)       -- shutil.copy2 raised
        else
          let result := resizedImg source_img sz maintain_aspect adaptive_icon_safe_margin
          if env.writeOk output_path then .ok (true, st.write output_path (File.png result))
          else .error (.ioError output_path)       -- img.save raised

/-- `resize_image` (lines 98–154): the body wrapped in `try/except`,
converting any raised error into a printed `❌ Error creating
{output_path}` message and a `False` result. -/
def resize_image (env : Env) (st : St) (source_path output_path : String)
    (size : Option Sz) (maintain_aspect adaptive_icon_safe_margin : Bool) : Bool × St :=
  match resize_image_try env st source_path output_path size
      maintain_aspect adaptive_icon_safe_margin with
  | .ok r => r
  | .error _ => (false, st.logMsg (.errorCreating output_path))

/-- One asset-generation task: resize `src` into `dst` at `size` with the
given `maintain_aspect` / `adaptive_icon_safe_margin` flags. -/
structure AssetTask where
  src : String
  dst : String
  size : Option Sz
  ma : Bool
  ad : Bool

/-- One step of a generator loop: run the task and increment the success
counter when `resize_image` returns `True`. -/
def runTask (env : Env) (t : AssetTask) (ns : ℕ × St) : ℕ × St :=
  let r := resize_image env ns.2 t.src t.dst t.size t.ma t.ad
  (ns.1 + (if r.1 then 1 else 0), r.2)

/-- The common `for ...: if resize_image(...): success_count += 1` loop of
the generator functions, continuing from an existing counter/state. -/
def runCatalogFrom (env : Env) (tasks : List AssetTask) (acc : ℕ × St) : ℕ × St :=
  tasks.foldl (fun ns t => runTask env t ns) acc

/-- Run a generator loop from a zero counter. -/
def runCatalog (env : Env) (tasks : List AssetTask) (st : St) : ℕ × St :=
  runCatalogFrom env tasks (0, st)

/-! ### Master image paths and catalog tables

`get_project_path` joins onto the project root; the root is modelled as
the empty prefix, so all paths below are the script's path strings
verbatim (the iOS/Android icon generators use bare relative paths in the
script as well). -/

def iconMaster : String := "master-images/icon-master.png"

def logoMaster : String := "master-images/logo-master.png"

def logoInvMaster : String := "master-images/logo-inverted-master.png"

def splashSquareMaster : String := "master-images/splash-square-master.png"

def splashPortraitMaster : String := "master-images/splash-android-portrait-master.png"

def splashLandscapeMaster : String := "master-images/splash-android-landscape-master.png"

def splashIconMaster : String := "master-images/splash-icon-square-master.png"

/-- The `f"...{size[0]}x{size[1]}..."` path fragments. -/
def sizeName (s : Sz) : String := toString s.w ++ "x" ++ toString s.h

/-- `web_sizes` (line 164). -/
def web_sizes : List Sz := [⟨192, 192⟩, ⟨512, 512⟩]

def webIconTasks (icon_master_path : String) : List AssetTask :=
  web_sizes.map (fun s =>
    ⟨icon_master_path, "public/icons/icon-" ++ sizeName s ++ ".png", some s, true, false⟩)

/-- `generate_web_icons` (lines 160–178). -/
def generate_web_icons (env : Env) (icon_master_path : String) (st : St) : ℕ × St :=
  runCatalog env (webIconTasks icon_master_path) st

/-- `logo_variants` of `generate_web_logos` (lines 190–195). -/
def webLogoVariants (logo_master_path : String) : List AssetTask :=
  [⟨logo_master_path, "public/icons/logo.png", some ⟨120, 32⟩, true, false⟩,
   ⟨logo_master_path, "client/src/assets/logo.png", some ⟨120, 32⟩, true, false⟩,
   ⟨logo_master_path, "client/src/assets/logo@2x.png", some ⟨240, 64⟩, true, false⟩,
   ⟨logo_master_path, "client/src/assets/logo@3x.png", some ⟨360, 96⟩, true, false⟩]

/-- `icon_variants` of `generate_web_logos` (lines 199–202). -/
def webIconVariants : List AssetTask :=
  [⟨iconMaster, "client/src/assets/icon-64x64.png", some ⟨64, 64⟩, true, false⟩,
   ⟨iconMaster, "client/src/assets/icon-128x128.png", some ⟨128, 128⟩, true, false⟩]

/-- `generate_web_logos` (lines 180–229): logo variants, icon variants if
the icon master exists, then a copy of the generated 192×192 icon into the
assets folder (counted as a placed file). -/
def generate_web_logos (env : Env) (logo_master_path : String) (st : St) : ℕ × St :=
  let a := runCatalog env (webLogoVariants logo_master_path) st
  let b :=
    if a.2.existsP iconMaster then runCatalogFrom env webIconVariants a
    else (a.1, a.2.logMsg .warnIconMaster)
  match b.2.read "public/icons/icon-192x192.png" with
  | some f =>
      if env.writeOk "client/src/assets/icon-192x192.png" then
        (b.1 + 1, b.2.write "client/src/assets/icon-192x192.png" f)
      else (b.1, b.2.logMsg .errorCopyAssets)
  | none => b

/-- `generate_web_logos_inverted` (lines 231–254). -/
def generate_web_logos_inverted (env : Env) (logo_inverted_master_path : String) (st : St) :
    ℕ × St :=
  runCatalog env
    [⟨logo_inverted_master_path, "public/icons/logo-inverted.png", some ⟨120, 32⟩, true, false⟩,
     ⟨logo_inverted_master_path, "client/src/assets/logo-inverted.png", some ⟨120, 32⟩, true, false⟩,
     ⟨logo_inverted_master_path, "client/src/assets/logo-inverted@2x.png", some ⟨240, 64⟩, true, false⟩,
     ⟨logo_inverted_master_path, "client/src/assets/logo-inverted@3x.png", some ⟨360, 96⟩, true, false⟩]
    st

/-- `ios_sizes` (lines 265–283). -/
def ios_sizes : List Sz :=
  [⟨1024, 1024⟩, ⟨180, 180⟩, ⟨167, 167⟩, ⟨152, 152⟩, ⟨120, 120⟩, ⟨114, 114⟩,
   ⟨87, 87⟩, ⟨80, 80⟩, ⟨76, 76⟩, ⟨60, 60⟩, ⟨58, 58⟩, ⟨57, 57⟩, ⟨40, 40⟩,
   ⟨29, 29⟩, ⟨20, 20⟩, ⟨144, 144⟩, ⟨72, 72⟩]

/-- `capacitor_appicon_defaults` (lines 286–305). -/
def capacitor_appicon_defaults : List (String × Sz) :=
  [("AppIcon-20x20@1x.png", ⟨20, 20⟩), ("AppIcon-20x20@2x-1.png", ⟨40, 40⟩),
   ("AppIcon-20x20@2x.png", ⟨40, 40⟩), ("AppIcon-20x20@3x.png", ⟨60, 60⟩),
   ("AppIcon-29x29@1x.png", ⟨29, 29⟩), ("AppIcon-29x29@2x-1.png", ⟨58, 58⟩),
   ("AppIcon-29x29@2x.png", ⟨58, 58⟩), ("AppIcon-29x29@3x.png", ⟨87, 87⟩),
   ("AppIcon-40x40@1x.png", ⟨40, 40⟩), ("AppIcon-40x40@2x-1.png", ⟨80, 80⟩),
   ("AppIcon-40x40@2x.png", ⟨80, 80⟩), ("AppIcon-40x40@3x.png", ⟨120, 120⟩),
   ("AppIcon-512@2x.png", ⟨512, 512⟩), ("AppIcon-60x60@2x.png", ⟨120, 120⟩),
   ("AppIcon-60x60@3x.png", ⟨180, 180⟩), ("AppIcon-76x76@1x.png", ⟨76, 76⟩),
   ("AppIcon-76x76@2x.png", ⟨152, 152⟩), ("AppIcon-83.5x83.5@2x.png", ⟨167, 167⟩)]

def iosIconTasks (icon_master_path : String) : List AssetTask :=
  ios_sizes.map (fun s =>
    ⟨icon_master_path,
     "ios/App/App/Assets.xcassets/AppIcon.appiconset/icon-" ++ sizeName s ++ ".png",
     some s, true, false⟩)
  ++ capacitor_appicon_defaults.map (fun fs =>
    ⟨icon_master_path, "ios/App/App/Assets.xcassets/AppIcon.appiconset/" ++ fs.1,
     some fs.2, true, false⟩)

/-- `generate_ios_icons` (lines 260–325). -/
def generate_ios_icons (env : Env) (icon_master_path : String) (st : St) : ℕ × St :=
  runCatalog env (iosIconTasks icon_master_path) st

/-- `ios_logo_sizes` task lists of `generate_ios_logos` and its inverted
variant (lines 331–336 and 353–358). -/
def iosLogoTasks (logo_master_path dir : String) (name : String) : List AssetTask :=
  [⟨logo_master_path, dir ++ "/" ++ name ++ ".png", some ⟨120, 32⟩, true, false⟩,
   ⟨logo_master_path, dir ++ "/" ++ name ++ "@2x.png", some ⟨240, 64⟩, true, false⟩,
   ⟨logo_master_path, dir ++ "/" ++ name ++ "@3x.png", some ⟨360, 96⟩, true, false⟩,
   ⟨logo_master_path, dir ++ "/" ++ name ++ "@4x.png", some ⟨480, 128⟩, true, false⟩]

/-- `generate_ios_logos` (lines 327–347). -/
def generate_ios_logos (env : Env) (logo_master_path : String) (st : St) : ℕ × St :=
  runCatalog env (iosLogoTasks logo_master_path "ios/App/App/Assets.xcassets/Logo.imageset" "logo") st

/-- `generate_ios_logos_inverted` (lines 349–369). -/
def generate_ios_logos_inverted (env : Env) (logo_inverted_master_path : String) (st : St) :
    ℕ × St :=
  runCatalog env
    (iosLogoTasks logo_inverted_master_path
      "ios/App/App/Assets.xcassets/LogoInverted.imageset" "logo-inverted") st

/-- `android_densities` (lines 379–386). -/
def android_densities : List (String × ℕ) :=
  [("ldpi", 36), ("mdpi", 48), ("hdpi", 72), ("xhdpi", 96), ("xxhdpi", 144), ("xxxhdpi", 192)]

/-- The three `resize_image` tasks of one density iteration of
`generate_android_icons` (lines 393–406). -/
def androidDensityTasks (icon_master_path density : String) (size : ℕ) : List AssetTask :=
  let dir := "android/app/src/main/res/mipmap-" ++ density
  [⟨icon_master_path, dir ++ "/ic_launcher.png", some ⟨size, size⟩, true, false⟩,
   ⟨icon_master_path, dir ++ "/ic_launcher_round.png", some ⟨size, size⟩, true, false⟩,
   ⟨icon_master_path, dir ++ "/ic_launcher_foreground.png", some ⟨size, size⟩, true, true⟩]

/-- The transparent background layer of one density iteration
(lines 408–415): `Image.new('RGBA', (size, size), (0,0,0,0))` saved
directly, wrapped in its own `try/except`. -/
def androidBg (env : Env) (density : String) (size : ℕ) (ns : ℕ × St) : ℕ × St :=
  let p := "android/app/src/main/res/mipmap-" ++ density ++ "/ic_launcher_background.png"
  if env.writeOk p then (ns.1 + 1, ns.2.write p (File.png (Img.blankI size size)))
  else (ns.1, ns.2.logMsg (.errorCreating p))

/-- The adaptive-icon XML text written by
`create_android_adaptive_icon_xmls` (both files share it). -/
def adaptiveIconXml : String :=
  "<?xml version=\"1.0\" encoding=\"utf-8\"?>\n<adaptive-icon xmlns:android=\"http://schemas.android.com/apk/res/android\">\n    <background android:drawable=\"@color/ic_launcher_background\"/>\n    <foreground android:drawable=\"@mipmap/ic_launcher_foreground\"/>\n</adaptive-icon>"

def xmlPath1 : String := "android/app/src/main/res/mipmap-anydpi-v26/ic_launcher.xml"

def xmlPath2 : String := "android/app/src/main/res/mipmap-anydpi-v26/ic_launcher_round.xml"

/-- `create_android_adaptive_icon_xmls` (lines 500–526): two plain
`open(...).write(...)` calls with no `try/except` — a raised OS error
propagates to the caller (the error carries the state at the raise). -/
def create_android_adaptive_icon_xmls (env : Env) (st : St) : Except (PyErr × St) St :=
  if env.writeOk xmlPath1 then
    let st1 := st.write xmlPath1 (File.xmlF adaptiveIconXml)
    if env.writeOk xmlPath2 then .ok (st1.write xmlPath2 (File.xmlF adaptiveIconXml))
    else .error (.ioError xmlPath2, st1)
  else .error (.ioError xmlPath1, st)

/-- `generate_android_icons` (lines 375–428): per density the three
resize tasks and the background layer, then the Play Store icon, then the
two XML files (whose write is unprotected) counted unconditionally. -/
def generate_android_icons (env : Env) (icon_master_path : String) (st : St) :
    Except (PyErr × St) (ℕ × St) :=
  let a := android_densities.foldl
    (fun ns ds =>
      androidBg env ds.1 ds.2 (runCatalogFrom env (androidDensityTasks icon_master_path ds.1 ds.2) ns))
    (0, st)
  let b := runCatalogFrom env
    [⟨icon_master_path, "android/app/src/main/res/mipmap-xxxhdpi/ic_launcher_playstore.png",
      some ⟨512, 512⟩, true, false⟩] a
  match create_android_adaptive_icon_xmls env b.2 with
  | .ok st2 => .ok (b.1 + 2, st2)
  | .error e => .error e

/-- The logo task lists of `generate_android_logos` and its inverted
variant (lines 430–498): `int(120 * scale) × int(32 * scale)` for the
density scales 0.75/1/1.5/2/3/4, all of which are exact in double
precision, plus the base logo in `drawable/`. -/
def androidLogoTasks (logo_master_path name : String) : List AssetTask :=
  ([("ldpi", Sz.mk 90 24), ("mdpi", ⟨120, 32⟩), ("hdpi", ⟨180, 48⟩), ("xhdpi", ⟨240, 64⟩),
    ("xxhdpi", ⟨360, 96⟩), ("xxxhdpi", ⟨480, 128⟩)] : List (String × Sz)).map
    (fun ds => ⟨logo_master_path,
      "android/app/src/main/res/drawable-" ++ ds.1 ++ "/" ++ name, some ds.2, true, false⟩)
  ++ [⟨logo_master_path, "android/app/src/main/res/drawable/" ++ name, some ⟨120, 32⟩, true, false⟩]

/-- `generate_android_logos` (lines 430–463). -/
def generate_android_logos (env : Env) (logo_master_path : String) (st : St) : ℕ × St :=
  runCatalog env (androidLogoTasks logo_master_path "logo.png") st

/-- `generate_android_logos_inverted` (lines 465–498). -/
def generate_android_logos_inverted (env : Env) (logo_inverted_master_path : String) (st : St) :
    ℕ × St :=
  runCatalog env (androidLogoTasks logo_inverted_master_path "logo-inverted.png") st

/-- `ios_splash_sizes` (lines 548–552). -/
def ios_splash_sizes : List Sz := [⟨2732, 2732⟩, ⟨1920, 1920⟩, ⟨1024, 1024⟩]

/-- `android_splash_densities` (lines 555–562). -/
def android_splash_densities : List (String × ℕ × ℕ) :=
  [("ldpi", 240, 320), ("mdpi", 320, 480), ("hdpi", 480, 720),
   ("xhdpi", 640, 960), ("xxhdpi", 960, 1440), ("xxxhdpi", 1280, 1920)]

/-- The splash task sequence of `generate_splash_screens` (lines 568–613),
in the script's order: web splash, iOS splash, Capacitor default names,
per-density portrait/landscape pairs, then the base Android splash. -/
def splashTasks : List AssetTask :=
  ios_splash_sizes.map (fun s =>
    ⟨splashSquareMaster, "public/splash/splash-" ++ sizeName s ++ ".png", some s, true, false⟩)
  ++ ios_splash_sizes.map (fun s =>
    ⟨splashSquareMaster,
     "ios/App/App/Assets.xcassets/Splash.imageset/splash-" ++ sizeName s ++ ".png",
     some s, true, false⟩)
  ++ (["splash-2732x2732-1.png", "splash-2732x2732-2.png", "splash-2732x2732.png"].map
      (fun n => ⟨splashSquareMaster, "ios/App/App/Assets.xcassets/Splash.imageset/" ++ n,
        some ⟨2732, 2732⟩, true, false⟩))
  ++ (android_splash_densities.flatMap (fun d =>
      [⟨splashPortraitMaster, "android/app/src/main/res/drawable-port-" ++ d.1 ++ "/splash.png",
        some ⟨d.2.1, d.2.2⟩, true, false⟩,
       ⟨splashLandscapeMaster, "android/app/src/main/res/drawable-land-" ++ d.1 ++ "/splash.png",
        some ⟨d.2.2, d.2.1⟩, true, false⟩]))
  ++ [⟨splashPortraitMaster, "android/app/src/main/res/drawable/splash.png",
      some ⟨1280, 1920⟩, true, false⟩]

/-- `splash_icon_sizes` (lines 632–638). -/
def splash_icon_sizes : List (String × ℕ) :=
  [("mdpi", 96), ("hdpi", 144), ("xhdpi", 192), ("xxhdpi", 288), ("xxxhdpi", 384)]

def splashIconTasks : List AssetTask :=
  splash_icon_sizes.map (fun d => ⟨splashIconMaster,
    "android/app/src/main/res/drawable-" ++ d.1 ++ "/splash_icon_center.png",
    some ⟨d.2, d.2⟩, true, false⟩)

/-- `generate_android_splash_icons` (lines 624–649): skipped with a
warning (returning 0) when its master is absent. -/
def generate_android_splash_icons (env : Env) (st : St) : ℕ × St :=
  if st.existsP splashIconMaster then runCatalog env splashIconTasks st
  else (0, st.logMsg .warnSplashIconMaster)

/-- `generate_splash_screens` (lines 532–622): an early `return` (counted
as 0 by `main`) when one of its three masters is absent, else the splash
catalog followed by the Android 12+ splash icons. -/
def generate_splash_screens (env : Env) (st : St) : ℕ × St :=
  match [splashSquareMaster, splashPortraitMaster, splashLandscapeMaster].find?
      (fun p => !(st.existsP p)) with
  | some p => (0, st.logMsg (.missingSplashMaster p))
  | none =>
    let a := runCatalog env splashTasks st
    let b := generate_android_splash_icons env a.2
    (a.1 + b.1, b.2)

/-! ### Configuration files and main -/

/-- An entry of the AppIcon `Contents.json` `images` array (lines 663–682). -/
def iconEntry (size idiom filename scale : String) : JVal :=
  .obj [("size", .str size), ("idiom", .str idiom),
        ("filename", .str filename), ("scale", .str scale)]

/-- An entry of the Splash `Contents.json` `images` array (lines 690–692). -/
def splashEntry (idiom filename scale : String) : JVal :=
  .obj [("idiom", .str idiom), ("filename", .str filename), ("scale", .str scale)]

/-- `{"version": 1, "author": "xcode"}`. -/
def infoStamp : JVal := .obj [("version", .num 1), ("author", .str "xcode")]

/-- `appicon_contents` (lines 660–685). -/
def appiconContents : JVal :=
  .obj [("images", .arr [
    iconEntry "20x20" "iphone" "AppIcon-20x20@2x.png" "2x",
    iconEntry "20x20" "iphone" "AppIcon-20x20@3x.png" "3x",
    iconEntry "29x29" "iphone" "AppIcon-29x29@2x.png" "2x",
    iconEntry "29x29" "iphone" "AppIcon-29x29@3x.png" "3x",
    iconEntry "40x40" "iphone" "AppIcon-40x40@2x.png" "2x",
    iconEntry "40x40" "iphone" "AppIcon-40x40@3x.png" "3x",
    iconEntry "60x60" "iphone" "AppIcon-60x60@2x.png" "2x",
    iconEntry "60x60" "iphone" "AppIcon-60x60@3x.png" "3x",
    iconEntry "20x20" "ipad" "AppIcon-20x20@1x.png" "1x",
    iconEntry "20x20" "ipad" "AppIcon-20x20@2x.png" "2x",
    iconEntry "29x29" "ipad" "AppIcon-29x29@1x.png" "1x",
    iconEntry "29x29" "ipad" "AppIcon-29x29@2x.png" "2x",
    iconEntry "40x40" "ipad" "AppIcon-40x40@1x.png" "1x",
    iconEntry "40x40" "ipad" "AppIcon-40x40@2x.png" "2x",
    iconEntry "76x76" "ipad" "AppIcon-76x76@1x.png" "1x",
    iconEntry "76x76" "ipad" "AppIcon-76x76@2x.png" "2x",
    iconEntry "83.5x83.5" "ipad" "AppIcon-83.5x83.5@2x.png" "2x",
    iconEntry "1024x1024" "ios-marketing" "icon-1024x1024.png" "1x"]),
   ("info", infoStamp)]

/-- `splash_contents` (lines 688–695). -/
def splashContents : JVal :=
  .obj [("images", .arr [
    splashEntry "universal" "splash-2732x2732.png" "1x",
    splashEntry "universal" "splash-1920x1920.png" "2x",
    splashEntry "universal" "splash-1024x1024.png" "3x"]),
   ("info", infoStamp)]

/-- `create_ios_contents_json` (lines 655–707): two plain writes with no
`try/except` — a raised OS error propagates to `main`. -/
def contentsPath1 : String := "ios/App/App/Assets.xcassets/AppIcon.appiconset/Contents.json"

def contentsPath2 : String := "ios/App/App/Assets.xcassets/Splash.imageset/Contents.json"

def create_ios_contents_json (env : Env) (st : St) : Except (PyErr × St) St :=
  if env.writeOk contentsPath1 then
    let st1 := st.write contentsPath1 (File.jsonF appiconContents)
    if env.writeOk contentsPath2 then .ok (st1.write contentsPath2 (File.jsonF splashContents))
    else .error (.ioError contentsPath2, st1)
  else .error (.ioError contentsPath1, st)

def manifestPath : String := "public/manifest.json"

/-- The fixed two-entry icons array written into the web manifest
(lines 723–734). -/
def iconsValue : JVal :=
  .arr [
    .obj [("src", .str "/icons/icon-192x192.png"), ("sizes", .str "192x192"),
          ("type", .str "image/png")],
    .obj [("src", .str "/icons/icon-512x512.png"), ("sizes", .str "512x512"),
          ("type", .str "image/png")]]

/-- Python dict assignment `d[k] = v`: replace in place when the key is
present (dict keys are unique, and insertion order is preserved), else
append at the end. -/
def setKey (m : List (String × JVal)) (k : String) (v : JVal) : List (String × JVal) :=
  if m.any (fun e => e.1 == k) then m.map (fun e => if e.1 == k then (k, v) else e)
  else m ++ [(k, v)]

/-- Python dict lookup `d[k]` as an `Option`. -/
def getKey (m : List (String × JVal)) (k : String) : Option JVal :=
  match m.find? (fun e => e.1 == k) with
  | some e => some e.2
  | none => none

/-- `update_manifest_json` (lines 709–741): skip with a warning when
`manifest.json` does not exist; otherwise read-modify-write inside a
`try/except` that degrades any error to a logged message. -/
def update_manifest_json (env : Env) (st : St) : St :=
  if st.existsP manifestPath = false then st.logMsg .warnManifestMissing
  else
    match st.read manifestPath with
    | some (File.jsonF (JVal.obj m)) =>
        if env.writeOk manifestPath then
          st.write manifestPath (File.jsonF (JVal.obj (setKey m "icons" iconsValue)))
        else st.logMsg .errorUpdatingManifest
    | _ => st.logMsg .errorUpdatingManifest

/-- The `master_images` dict of `main` (lines 757–765), in order. -/
def masterImagePaths : List String :=
  [iconMaster, logoMaster, logoInvMaster, splashSquareMaster,
   splashPortraitMaster, splashLandscapeMaster, splashIconMaster]

/-- How `main` terminates: `sys.exit(1)` on missing masters, or normal
completion with the grand total of placed assets. -/
inductive MainOut
  | exitFail
  | done (total : ℕ)
deriving DecidableEq

/-- The generation pipeline of `main` (lines 789–831), run after the
pre-flight master check: every generator in order, accumulating the
total, then the Contents.json files and the web-manifest update.  An
exception escaping a generator (the unprotected writes) propagates. -/
def mainPipeline (env : Env) (st : St) : Except (PyErr × St) (MainOut × St) :=
  let a1 := generate_web_icons env iconMaster st
  let a2 := generate_web_logos env logoMaster a1.2
  let a3 := generate_web_logos_inverted env logoInvMaster a2.2
  let a4 := generate_ios_icons env iconMaster a3.2
  let a5 := generate_ios_logos env logoMaster a4.2
  let a6 := generate_ios_logos_inverted env logoInvMaster a5.2
  match generate_android_icons env iconMaster a6.2 with
  | .error e => .error e
  | .ok a7 =>
    let a8 := generate_android_logos env logoMaster a7.2
    let a9 := generate_android_logos_inverted env logoInvMaster a8.2
    let a10 := generate_splash_screens env a9.2
    match create_ios_contents_json env a10.2 with
    | .error e => .error e
    | .ok st11 =>
      let st12 := update_manifest_json env st11
      .ok (.done (a1.1 + a2.1 + a3.1 + a4.1 + a5.1 + a6.1 + a7.1 + a8.1 + a9.1 + a10.1), st12)

/-- `main` (lines 747–849): verify all required masters exist (else print
them and `sys.exit(1)` before any generation), then run the generation
pipeline. -/
def mainRun (env : Env) (fs : FS) : Except (PyErr × St) (MainOut × St) :=
  let st : St := ⟨fs, [], []⟩
  let missing := masterImagePaths.filter (fun p => !(st.existsP p))
  if missing = [] then mainPipeline env st
  else .ok (.exitFail, st.logMsg (.missingMasters missing))

/-! ### Observations on runs and the shared witness filesystem -/

/-- The frame size of a raster file (zero for non-images). -/
def fileSize : File → Sz
  | .png i => i.size
  | _ => ⟨0, 0⟩

/-- The content bounding rectangle of a raster file (for sources whose
content spans their full frame). -/
def fileContent : File → Rect
  | .png i => i.contentRect
  | _ => ⟨0, 0, 0, 0⟩

/-- The path of the exception a computation escaped with, if any. -/
def errPath {α : Type} : Except (PyErr × St) α → Option String
  | .error (.ioError p, _) => some p
  | .ok _ => none

/-- The write log of a run (most recent first), including the writes a
run performed before dying with an uncaught exception. -/
def mainWrites (env : Env) (fs : FS) : List (String × File) :=
  match mainRun env fs with
  | .ok r => r.2.writes
  | .error e => e.2.writes

/-- The filesystem visible after a run. -/
def mainFS (env : Env) (fs : FS) : FS :=
  match mainRun env fs with
  | .ok r => fun p => r.2.read p
  | .error e => fun p => e.2.read p

/-- A concrete filesystem with all seven masters at their documented
native sizes, a web manifest, and two extra source images used by
witnesses: an alpha-less image already at 192×192 and a tiny 10×10 one. -/
def wFS : FS := fun p =>
  if p = iconMaster then some (File.png (Img.srcI 1 1024 1024 true))
  else if p = logoMaster then some (File.png (Img.srcI 2 480 128 true))
  else if p = logoInvMaster then some (File.png (Img.srcI 3 480 128 true))
  else if p = splashSquareMaster then some (File.png (Img.srcI 4 2732 2732 true))
  else if p = splashPortraitMaster then some (File.png (Img.srcI 5 1280 1920 true))
  else if p = splashLandscapeMaster then some (File.png (Img.srcI 6 1920 1280 true))
  else if p = splashIconMaster then some (File.png (Img.srcI 7 1024 1024 true))
  else if p = "master-images/opaque-192.png" then some (File.png (Img.srcI 8 192 192 false))
  else if p = "master-images/tiny-10.png" then some (File.png (Img.srcI 9 10 10 true))
  else if p = manifestPath then some (File.jsonF (JVal.obj
    [("name", .str "App"), ("icons", .arr []), ("theme_color", .str "#000000")]))
  else none

/-- The state at the start of a run over `wFS`. -/
def wSt : St := ⟨wFS, [], []⟩

/-- An environment in which writing the first adaptive-icon XML file
raises an OS error and everything else succeeds. -/
def xmlFailEnv : Env :=
  ⟨fun _ => true, fun p => !(p == xmlPath1)⟩

/-- Whether a task's source file can be opened and decoded in the given
environment and state. -/
def sourceOkB (env : Env) (st : St) (t : AssetTask) : Bool :=
  env.decodeOk t.src &&
    (match st.read t.src with
     | some f => f.dec.isSome
     | none => false)

/-! ### Claim C9: simulation framework for run idempotence -/

/-- Two states read identically at every path in `R`. -/
def agreeOn (R : List String) (s1 s2 : St) : Prop :=
  ∀ p ∈ R, s1.read p = s2.read p

/-- A computation step appended the same new writes to two states,
touching only paths in `D` and leaving the base filesystems unchanged. -/
def SimW (D : List String) (s1 s2 s1' s2' : St) : Prop :=
  ∃ W : List (String × File),
    s1'.writes = W ++ s1.writes ∧ s2'.writes = W ++ s2.writes ∧
    (∀ e ∈ W, e.1 ∈ D) ∧ s1'.base = s1.base ∧ s2'.base = s2.base

def icon192Path : String := "public/icons/icon-192x192.png"

/-- The file readable at `icon192Path` after `generate_web_icons`, as a
function of the icon master's file and the path's previous content: the
192×192 task overwrites it whenever the master decodes, and leaves it
alone otherwise. -/
def icon192After (vIcon w : Option File) : Option File :=
  match vIcon with
  | some f =>
    match f.dec with
    | some img =>
        some (if img.size = Sz.mk 192 192 then f
          else File.png (resizedImg img ⟨192, 192⟩ true false))
    | none => w
  | none => w

/-- The manifest file after `update_manifest_json` in the error-free
environment, as a function of the manifest read before it. -/
def manifestAfter (v : Option File) : Option File :=
  match v with
  | some (File.jsonF (JVal.obj m)) =>
      some (File.jsonF (JVal.obj (setKey m "icons" iconsValue)))
  | other => other

/-- The paths every run may read: the seven masters, the generated
192×192 icon (re-read by the web-logos generator), and the manifest. -/
def Rrun : List String := masterImagePaths ++ [icon192Path]

/-- The destination paths of `generate_android_icons`, in write order. -/
def androidDsts : List String :=
  android_densities.flatMap (fun d =>
    (androidDensityTasks iconMaster d.1 d.2).map (fun t => t.dst) ++
    ["android/app/src/main/res/mipmap-" ++ d.1 ++ "/ic_launcher_background.png"]) ++
  ([AssetTask.mk iconMaster "android/app/src/main/res/mipmap-xxxhdpi/ic_launcher_playstore.png" (some ⟨512, 512⟩) true false].map (fun t => t.dst) ++
   ([xmlPath1] ++ [xmlPath2]))

/-- `generate_android_icons` in the error-free environment, as a total
function: the density loop, the Play Store icon, then the two XML writes
counted as two placed assets. -/
def androidIconsOk (st : St) : ℕ × St :=
  let b := runCatalogFrom allOk [AssetTask.mk iconMaster "android/app/src/main/res/mipmap-xxxhdpi/ic_launcher_playstore.png" (some ⟨512, 512⟩) true false]
    (android_densities.foldl (fun ns d =>
        androidBg allOk d.1 d.2 (runCatalogFrom allOk (androidDensityTasks iconMaster d.1 d.2) ns))
      (0, st))
  (b.1 + 2, (b.2.write xmlPath1 (File.xmlF adaptiveIconXml)).write xmlPath2 (File.xmlF adaptiveIconXml))

/-- The `icon_variants` part of `generate_web_logos` (lines 199–210),
guarded by the existence of the icon master. -/
def iconVariantsStep (env : Env) (a : ℕ × St) : ℕ × St :=
  if a.2.existsP iconMaster then runCatalogFrom env webIconVariants a
  else (a.1, a.2.logMsg .warnIconMaster)

/-- The final step of `generate_web_logos` (lines 212–225): copy the
generated 192×192 icon into the client assets folder. -/
def copyStep (env : Env) (b : ℕ × St) : ℕ × St :=
  match b.2.read "public/icons/icon-192x192.png" with
  | some f =>
      if env.writeOk "client/src/assets/icon-192x192.png" then
        (b.1 + 1, b.2.write "client/src/assets/icon-192x192.png" f)
      else (b.1, b.2.logMsg .errorCopyAssets)
  | none => b

/-- The two unconditional `Contents.json` writes in the error-free
environment, as a total function on states. -/
def contentsOk (st : St) : St :=
  (st.write contentsPath1 (File.jsonF appiconContents)).write contentsPath2
    (File.jsonF splashContents)

/-- The normal form of `main`'s generation pipeline (lines 789–831) in the
error-free environment: every stage in order, the manifest update last. -/
def pipeOk (st : St) : ℕ × St :=
  let a1 := generate_web_icons allOk iconMaster st
  let a2 := generate_web_logos allOk logoMaster a1.2
  let a3 := generate_web_logos_inverted allOk logoInvMaster a2.2
  let a4 := generate_ios_icons allOk iconMaster a3.2
  let a5 := generate_ios_logos allOk logoMaster a4.2
  let a6 := generate_ios_logos_inverted allOk logoInvMaster a5.2
  let a7 := androidIconsOk a6.2
  let a8 := generate_android_logos allOk logoMaster a7.2
  let a9 := generate_android_logos_inverted allOk logoInvMaster a8.2
  let a10 := generate_splash_screens allOk a9.2
  (a1.1 + a2.1 + a3.1 + a4.1 + a5.1 + a6.1 + a7.1 + a8.1 + a9.1 + a10.1,
   update_manifest_json allOk (contentsOk a10.2))

/-- Every destination path the pipeline writes, in write order, grouped
by stage. -/
def pipeDsts : List String :=
  (webIconTasks iconMaster).map (fun t => t.dst) ++
  (((webLogoVariants logoMaster).map (fun t => t.dst) ++
      (webIconVariants.map (fun t => t.dst) ++ ["client/src/assets/icon-192x192.png"])) ++
  (([⟨logoInvMaster, "public/icons/logo-inverted.png", some ⟨120, 32⟩, true, false⟩,
      ⟨logoInvMaster, "client/src/assets/logo-inverted.png", some ⟨120, 32⟩, true, false⟩,
      ⟨logoInvMaster, "client/src/assets/logo-inverted@2x.png", some ⟨240, 64⟩, true, false⟩,
      ⟨logoInvMaster, "client/src/assets/logo-inverted@3x.png", some ⟨360, 96⟩, true, false⟩] :
        List AssetTask).map (fun t => t.dst) ++
  ((iosIconTasks iconMaster).map (fun t => t.dst) ++
  ((iosLogoTasks logoMaster "ios/App/App/Assets.xcassets/Logo.imageset" "logo").map
      (fun t => t.dst) ++
  ((iosLogoTasks logoInvMaster "ios/App/App/Assets.xcassets/LogoInverted.imageset"
      "logo-inverted").map (fun t => t.dst) ++
  (androidDsts ++
  ((androidLogoTasks logoMaster "logo.png").map (fun t => t.dst) ++
  ((androidLogoTasks logoInvMaster "logo-inverted.png").map (fun t => t.dst) ++
  ((splashTasks.map (fun t => t.dst) ++ splashIconTasks.map (fun t => t.dst)) ++
  (([contentsPath1] ++ [contentsPath2]) ++ [manifestPath]))))))))))

example : int07 192 = 134 := by decide

example : int07 10 = 7 := by decide

example : int07 36 = 25 := by decide

example : int07 48 = 33 := by decide

example : int07 144 = 100 := by decide

example : int07 512 = 358 := by decide

example : thumbSize 10 10 192 192 = ⟨10, 10⟩ := by decide

example : thumbSize 1024 1024 192 192 = ⟨192, 192⟩ := by decide

example : thumbSize 480 128 120 32 = ⟨120, 32⟩ := by decide

example : thumbSize 1024 1024 134 134 = ⟨134, 134⟩ := by decide

example : thumbSize 1920 1280 480 720 = ⟨480, 320⟩ := by decide

example : thumbSize 480 128 90 24 = ⟨90, 24⟩ := by decide

example : thumbSize 2732 2732 1024 1024 = ⟨1024, 1024⟩ := by decide

example : thumbSize 1280 1920 240 320 = ⟨213, 320⟩ := by decide

example : thumbSize 100 10 50 50 = ⟨50, 5⟩ := by decide

example : thumbSize 100 10 200 5 = ⟨50, 5⟩ := by decide

example : thumbSize 3 1000 134 134 = ⟨1, 134⟩ := by decide

example : thumbSize 1000 3 134 134 = ⟨134, 1⟩ := by decide

example : thumbSize 7 5 3 2 = ⟨3, 2⟩ := by decide

/-- The rounded fitted width never exceeds the width bound `x` of the box,
given the branch condition `w * y ≤ x * h` under which Pillow computes it. -/
theorem fitWidth_le {w h x y : ℕ} (hx : 1 ≤ x) (hh : 0 < h) (hle : w * y ≤ x * h) :
    fitWidth w h y ≤ x := by
  have hle2 : y * w ≤ x * h := by rwa [Nat.mul_comm] at hle
  have key : (y * w + h - 1) / h ≤ x := by
    have h3 : y * w + h - 1 ≤ h - 1 + h * x := by
      have h4 : y * w ≤ h * x := by rwa [Nat.mul_comm h x]
      omega
    calc (y * w + h - 1) / h ≤ (h - 1 + h * x) / h := Nat.div_le_div_right h3
      _ = (h - 1) / h + x := Nat.add_mul_div_left _ _ hh
      _ = x := by rw [Nat.div_eq_of_lt (by omega), Nat.zero_add]
  have hf : y * w / h ≤ x := le_trans (Nat.div_le_div_right (by omega)) key
  simp only [fitWidth]
  refine max_le ?_ hx
  split
  · exact hf
  · exact key

/-- The rounded fitted height never exceeds the height bound `y` of the box,
given the branch condition `x * h ≤ w * y` under which Pillow computes it. -/
theorem fitHeight_le {w h x y : ℕ} (hy : 1 ≤ y) (hw : 0 < w) (hle : x * h ≤ w * y) :
    fitHeight w h x ≤ y := by
  have hle2 : x * h ≤ y * w := by rwa [Nat.mul_comm w y] at hle
  have key : (x * h + w - 1) / w ≤ y := by
    have h3 : x * h + w - 1 ≤ w - 1 + w * y := by
      have h4 : x * h ≤ w * y := by rwa [Nat.mul_comm y w] at hle2
      omega
    calc (x * h + w - 1) / w ≤ (w - 1 + w * y) / w := Nat.div_le_div_right h3
      _ = (w - 1) / w + y := Nat.add_mul_div_left _ _ hw
      _ = y := by rw [Nat.div_eq_of_lt (by omega), Nat.zero_add]
  have hf : x * h / w ≤ y := le_trans (Nat.div_le_div_right (by omega)) key
  simp only [fitHeight]
  refine max_le ?_ hy
  split
  · exact hf
  · split
    · exact hf
    · exact key

/-- `Image.thumbnail` never produces a size exceeding the box (for positive
image dimensions and a positive box). -/
theorem thumbSize_le {w h x y : ℕ} (hw : 0 < w) (hh : 0 < h) (hx : 0 < x) (hy : 0 < y) :
    (thumbSize w h x y).w ≤ x ∧ (thumbSize w h x y).h ≤ y := by
  unfold thumbSize
  by_cases hfit : w ≤ x ∧ h ≤ y
  · simp only [hfit, if_true]
    exact ⟨hfit.1, hfit.2⟩
  · simp only [hfit, if_false]
    by_cases hbr : w * y ≤ x * h
    · simp only [hbr, if_true]
      exact ⟨fitWidth_le hx hh hbr, le_refl y⟩
    · simp only [hbr, if_false]
      exact ⟨le_refl x, fitHeight_le hy hw (le_of_lt (Nat.lt_of_not_le hbr))⟩

/-- `Image.thumbnail` leaves an image that already fits inside the box
unchanged (it never upscales). -/
theorem thumbSize_fit {w h x y : ℕ} (hfit : w ≤ x ∧ h ≤ y) :
    thumbSize w h x y = ⟨w, h⟩ := by
  unfold thumbSize
  rw [if_pos hfit]

/-- When the image does not fit inside the box, `Image.thumbnail` pins one
axis to its bound. -/
theorem thumbSize_pin {w h x y : ℕ} (hnofit : ¬(w ≤ x ∧ h ≤ y)) :
    (thumbSize w h x y).w = x ∨ (thumbSize w h x y).h = y := by
  unfold thumbSize
  simp only [hnofit, if_false]
  by_cases hbr : w * y ≤ x * h
  · rw [if_pos hbr]
    exact Or.inr rfl
  · rw [if_neg hbr]
    exact Or.inl rfl

/-! ### Basic state lemmas -/

theorem St.read_write_self (s : St) (p : String) (f : File) :
    (s.write p f).read p = some f := by
  simp [St.read, St.write, List.find?]

theorem St.read_write_ne (s : St) (p q : String) (f : File) (h : q ≠ p) :
    (s.write p f).read q = s.read q := by
  simp only [St.read, St.write, List.find?]
  rw [show (p == q) = false from beq_eq_false_iff_ne.mpr (Ne.symm h)]

theorem St.read_logMsg (s : St) (m : LogMsg) (q : String) :
    (s.logMsg m).read q = s.read q := rfl

/-! ### Claims about `resize_image` alone -/

/-- Happy-path equation for `resize_image`: with a readable, decodable
source and a writable destination the call succeeds, writing either the
verbatim source file (same size) or the re-encoded resized raster. -/
theorem resize_image_eq (env : Env) (st : St) (sp op : String) (f : File) (img : Img)
    (size : Option Sz) (ma ad : Bool)
    (hread : st.read sp = some f) (hdec : f.dec = some img)
    (hdecok : env.decodeOk sp = true) (hwr : env.writeOk op = true) :
    resize_image env st sp op size ma ad =
      (true, st.write op (if img.size = size.getD img.size then f
        else File.png (resizedImg img (size.getD img.size) ma ad))) := by
  unfold resize_image resize_image_try
  rw [hread]
  simp only [hdec, hdecok]
  by_cases hsz : img.size = size.getD img.size
  · rw [if_pos hsz, if_pos hsz]
    simp [hwr]
  · rw [if_neg hsz, if_neg hsz]
    simp [hwr]

/-- The resize path always yields an RGBA raster (alpha-capable mode). -/
theorem resizedImg_alpha (img : Img) (sz : Sz) (ma ad : Bool) :
    (resizedImg img sz ma ad).alphaB = true := by
  cases ma <;> rfl

/-- Claim C3 (confirmed): for a task whose target size is `None` (meaning
"use the source's native size") or equals the source's native size,
`resize_image` copies the source file verbatim — the output file equals
the source file byte for byte, with no re-encode — and returns success,
provided the source can be opened and the destination written. -/
theorem claim_C3 (env : Env) (st : St) (sp op : String) (f : File) (img : Img)
    (size : Option Sz)
    (hread : st.read sp = some f) (hdec : f.dec = some img)
    (hdecok : env.decodeOk sp = true) (hwr : env.writeOk op = true)
    (hsize : size = none ∨ size = some img.size) :
    resize_image env st sp op size true false = (true, st.write op f) ∧
    (st.write op f).read op = some f := by
  refine ⟨?_, St.read_write_self st op f⟩
  have h := resize_image_eq env st sp op f img size true false hread hdec hdecok hwr
  rcases hsize with hs | hs <;> subst hs <;> simpa using h

/-- Witness for C3 at a concrete input: the 1024×1024 icon master copied
with `size = None`. -/
theorem claim_C3_witness :
    resize_image allOk wSt iconMaster "out.png" none true false =
      (true, wSt.write "out.png" (File.png (Img.srcI 1 1024 1024 true))) ∧
    (wSt.write "out.png" (File.png (Img.srcI 1 1024 1024 true))).read "out.png" =
      some (File.png (Img.srcI 1 1024 1024 true)) :=
  claim_C3 allOk wSt iconMaster "out.png" (File.png (Img.srcI 1 1024 1024 true))
    (Img.srcI 1 1024 1024 true) none rfl rfl rfl rfl (Or.inl rfl)

/-- Claim C10 (confirmed): the same-size direct-copy fast path is tested
before any mode-specific logic, so a source whose native size equals the
target size is copied verbatim regardless of the `maintain_aspect` and
`adaptive_icon_safe_margin` flags — in particular a safe-margin (adaptive
icon) request at native size receives the unshrunk source, with no 70%
margin applied. -/
theorem claim_C10 (env : Env) (st : St) (sp op : String) (f : File) (img : Img)
    (ma ad : Bool)
    (hread : st.read sp = some f) (hdec : f.dec = some img)
    (hdecok : env.decodeOk sp = true) (hwr : env.writeOk op = true) :
    resize_image env st sp op (some img.size) ma ad = (true, st.write op f) := by
  have h := resize_image_eq env st sp op f img (some img.size) ma ad hread hdec hdecok hwr
  simpa using h

/-- Witness for C10 at a concrete input: a safe-margin (adaptive icon)
request for a source already at the target size 192×192 — the output is
the verbatim source, not a margin-scaled image. -/
theorem claim_C10_witness :
    resize_image allOk wSt "master-images/opaque-192.png" "fg.png" (some ⟨192, 192⟩) true true =
      (true, wSt.write "fg.png" (File.png (Img.srcI 8 192 192 false))) :=
  claim_C10 allOk wSt "master-images/opaque-192.png" "fg.png"
    (File.png (Img.srcI 8 192 192 false)) (Img.srcI 8 192 192 false) true true
    rfl rfl rfl rfl

/-- Counterexample to C4 as stated: a successful output of `resize_image`
that is not an alpha-carrying PNG — an alpha-less source already at the
target size is copied verbatim, so the output keeps the source's
alpha-less pixel format rather than being saved as an RGBA PNG. -/
theorem claim_C4_counterexample :
    (resize_image allOk wSt "master-images/opaque-192.png" "c4.png" (some ⟨192, 192⟩)
        true false).1 = true ∧
    ((resize_image allOk wSt "master-images/opaque-192.png" "c4.png" (some ⟨192, 192⟩)
        true false).2.read "c4.png").map File.hasAlpha = some false := ⟨rfl, rfl⟩

/-- Claim C4 (corrected): every successful `resize_image` output is either
(source already at target size) a verbatim byte-copy of the source file,
keeping the source's own format and alpha-ness, or (any other size) a PNG
encode of an RGBA raster whose pixel mode always carries an alpha channel;
alpha-less sources are converted to RGBA (fully opaque) before
resampling. -/
theorem claim_C4 (env : Env) (st : St) (sp op : String) (f : File) (img : Img)
    (size : Option Sz) (ma ad : Bool)
    (hread : st.read sp = some f) (hdec : f.dec = some img)
    (hdecok : env.decodeOk sp = true) (hwr : env.writeOk op = true) :
    (img.size = size.getD img.size ∧
      resize_image env st sp op size ma ad = (true, st.write op f)) ∨
    (img.size ≠ size.getD img.size ∧
      ∃ i : Img, i.alphaB = true ∧
        resize_image env st sp op size ma ad = (true, st.write op (File.png i))) := by
  have h := resize_image_eq env st sp op f img size ma ad hread hdec hdecok hwr
  by_cases hsz : img.size = size.getD img.size
  · left
    exact ⟨hsz, by rwa [if_pos hsz] at h⟩
  · right
    exact ⟨hsz, resizedImg img (size.getD img.size) ma ad,
      resizedImg_alpha img (size.getD img.size) ma ad, by rwa [if_neg hsz] at h⟩

/-- Witness for C4 at a concrete input: the alpha-less 192×192 source
resized to 64×64 goes through the RGBA re-encode path. -/
theorem claim_C4_witness :
    ((Img.srcI 8 192 192 false).size = (some (Sz.mk 64 64)).getD (Img.srcI 8 192 192 false).size ∧
      resize_image allOk wSt "master-images/opaque-192.png" "c4w.png" (some ⟨64, 64⟩) true false =
        (true, wSt.write "c4w.png" (File.png (Img.srcI 8 192 192 false)))) ∨
    ((Img.srcI 8 192 192 false).size ≠ (some (Sz.mk 64 64)).getD (Img.srcI 8 192 192 false).size ∧
      ∃ i : Img, i.alphaB = true ∧
        resize_image allOk wSt "master-images/opaque-192.png" "c4w.png" (some ⟨64, 64⟩) true false =
          (true, wSt.write "c4w.png" (File.png i))) :=
  claim_C4 allOk wSt "master-images/opaque-192.png" "c4w.png"
    (File.png (Img.srcI 8 192 192 false)) (Img.srcI 8 192 192 false)
    (some ⟨64, 64⟩) true false rfl rfl rfl rfl

/-- Content rectangle of the aspect-pad path on a full-frame source:
the thumbnail of the source pasted centred. -/
theorem resizedImg_content_aspect (id sw sh : ℕ) (a : Bool) (sz : Sz) :
    (resizedImg (Img.srcI id sw sh a) sz true false).contentRect =
      ⟨(sz.w - (thumbSize sw sh sz.w sz.h).w) / 2, (sz.h - (thumbSize sw sh sz.w sz.h).h) / 2,
       (thumbSize sw sh sz.w sz.h).w, (thumbSize sw sh sz.w sz.h).h⟩ := rfl

/-- Content rectangle of the safe-margin path at target 192×192 on a
full-frame source: the box is `(int(192*0.7), int(192*0.7)) = (134, 134)`. -/
theorem resizedImg_content_adaptive (id sw sh : ℕ) (a : Bool) :
    (resizedImg (Img.srcI id sw sh a) ⟨192, 192⟩ true true).contentRect =
      ⟨(192 - (thumbSize sw sh 134 134).w) / 2, (192 - (thumbSize sw sh 134 134).h) / 2,
       (thumbSize sw sh 134 134).w, (thumbSize sw sh 134 134).h⟩ := rfl

/-- The aspect-pad canvas always has exactly the target size. -/
theorem resizedImg_size (img : Img) (sz : Sz) (ad : Bool) :
    (resizedImg img sz true ad).size = sz := rfl

/-- Counterexample to C1 as stated: a 10×10 source aspect-padded to
192×192 succeeds with output canvas 192×192, but the pasted content stays
10×10 (Pillow's thumbnail never upscales), so neither content dimension
equals its bound — the "at least one of them equals its bound" part of the
claim is false. -/
theorem claim_C1_counterexample :
    (resize_image allOk wSt "master-images/tiny-10.png" "c1.png" (some ⟨192, 192⟩)
        true false).1 = true ∧
    ((resize_image allOk wSt "master-images/tiny-10.png" "c1.png" (some ⟨192, 192⟩)
        true false).2.read "c1.png").map fileSize = some ⟨192, 192⟩ ∧
    ((resize_image allOk wSt "master-images/tiny-10.png" "c1.png" (some ⟨192, 192⟩)
        true false).2.read "c1.png").map fileContent = some ⟨91, 91, 10, 10⟩ ∧
    ¬((10 : ℕ) = 192 ∨ (10 : ℕ) = 192) := ⟨rfl, rfl, rfl, by decide⟩

/-- Claim C1 (corrected): an aspect-pad transform of a full-frame source
`(sw, sh)` to a positive target `(tw, th)` succeeds with an output of
exactly `(tw, th)`; the pasted content is never clipped and its dimensions
never exceed `(tw, th)`; when the source does not already fit inside the
target box, one content dimension equals its bound; when it fits, the
content keeps exactly the source's size (Pillow never upscales). -/
theorem claim_C1 (env : Env) (st : St) (sp op : String) (id sw sh : ℕ) (a : Bool)
    (tw th : ℕ)
    (hsw : 0 < sw) (hsh : 0 < sh) (htw : 0 < tw) (hth : 0 < th)
    (hread : st.read sp = some (File.png (Img.srcI id sw sh a)))
    (hdecok : env.decodeOk sp = true) (hwr : env.writeOk op = true) :
    ∃ f : File,
      resize_image env st sp op (some ⟨tw, th⟩) true false = (true, st.write op f) ∧
      fileSize f = ⟨tw, th⟩ ∧
      (fileContent f).w ≤ tw ∧ (fileContent f).h ≤ th ∧
      (fileContent f).x + (fileContent f).w ≤ tw ∧
      (fileContent f).y + (fileContent f).h ≤ th ∧
      ((sw ≤ tw ∧ sh ≤ th) → (fileContent f).w = sw ∧ (fileContent f).h = sh) ∧
      (¬(sw ≤ tw ∧ sh ≤ th) → (fileContent f).w = tw ∨ (fileContent f).h = th) := by
  have h := resize_image_eq env st sp op (File.png (Img.srcI id sw sh a))
    (Img.srcI id sw sh a) (some ⟨tw, th⟩) true false hread rfl hdecok hwr
  by_cases hsz : (Img.srcI id sw sh a).size = ((some (Sz.mk tw th)).getD (Img.srcI id sw sh a).size)
  · rw [if_pos hsz] at h
    have hs : sw = tw ∧ sh = th := by
      have := hsz
      simp [Img.size, Sz.mk.injEq] at this
      exact this
    refine ⟨File.png (Img.srcI id sw sh a), h, ?_, ?_, ?_, ?_, ?_, ?_, ?_⟩
    · simp [fileSize, Img.size, hs.1, hs.2]
    · simp [fileContent, Img.contentRect]; omega
    · simp [fileContent, Img.contentRect]; omega
    · simp [fileContent, Img.contentRect]; omega
    · simp [fileContent, Img.contentRect]; omega
    · intro _; simp [fileContent, Img.contentRect]
    · intro hcon; exact absurd ⟨by omega, by omega⟩ hcon
  · rw [if_neg hsz] at h
    refine ⟨File.png (resizedImg (Img.srcI id sw sh a) ⟨tw, th⟩ true false), h, ?_⟩
    have hc : fileContent (File.png (resizedImg (Img.srcI id sw sh a) ⟨tw, th⟩ true false)) =
        ⟨(tw - (thumbSize sw sh tw th).w) / 2, (th - (thumbSize sw sh tw th).h) / 2,
         (thumbSize sw sh tw th).w, (thumbSize sw sh tw th).h⟩ := rfl
    have hle := thumbSize_le (w := sw) (h := sh) (x := tw) (y := th) hsw hsh htw hth
    rw [hc]
    dsimp only
    refine ⟨rfl, hle.1, hle.2, by omega, by omega, ?_, ?_⟩
    · intro hfit
      have := thumbSize_fit (w := sw) (h := sh) (x := tw) (y := th) hfit
      rw [this]
      exact ⟨rfl, rfl⟩
    · intro hnofit
      exact thumbSize_pin hnofit

/-- Witness for C1 at a concrete input: the 1024×1024 icon master
aspect-padded to 192×192. -/
theorem claim_C1_witness :
    ∃ f : File,
      resize_image allOk wSt iconMaster "c1w.png" (some ⟨192, 192⟩) true false =
        (true, wSt.write "c1w.png" f) ∧
      fileSize f = ⟨192, 192⟩ ∧
      (fileContent f).w ≤ 192 ∧ (fileContent f).h ≤ 192 ∧
      (fileContent f).x + (fileContent f).w ≤ 192 ∧
      (fileContent f).y + (fileContent f).h ≤ 192 ∧
      (((1024 : ℕ) ≤ 192 ∧ (1024 : ℕ) ≤ 192) → (fileContent f).w = 1024 ∧ (fileContent f).h = 1024) ∧
      (¬((1024 : ℕ) ≤ 192 ∧ (1024 : ℕ) ≤ 192) → (fileContent f).w = 192 ∨ (fileContent f).h = 192) :=
  claim_C1 allOk wSt iconMaster "c1w.png" 1 1024 1024 true 192 192
    (by decide) (by decide) (by decide) (by decide) rfl rfl rfl

/-- Counterexample to C2 as stated: a full-frame opaque source already at
192×192 hits the direct-copy fast path even though the call requests the
adaptive-icon safe margin, so the output's content spans the whole
192×192 canvas — it does not fit in (134, 134) and the border is 0. -/
theorem claim_C2_counterexample :
    (resize_image allOk wSt "master-images/opaque-192.png" "c2.png" (some ⟨192, 192⟩)
        true true).1 = true ∧
    ((resize_image allOk wSt "master-images/opaque-192.png" "c2.png" (some ⟨192, 192⟩)
        true true).2.read "c2.png").map fileContent = some ⟨0, 0, 192, 192⟩ ∧
    ¬((192 : ℕ) ≤ 134) := ⟨rfl, rfl, by decide⟩

/-- Claim C2 (corrected): an `aspect-pad-safe-margin` transform to target
192×192 of any full-frame source whose native size is not exactly
192×192 (that case takes the direct-copy fast path) scales the content
into the box `(int(192*0.7), int(192*0.7)) = (134, 134)` and leaves a
transparent border of at least `(192-134)/2 = 29` pixels on each of the
four sides. -/
theorem claim_C2 (env : Env) (st : St) (sp op : String) (id sw sh : ℕ) (a : Bool)
    (hsw : 0 < sw) (hsh : 0 < sh) (hne : ¬(sw = 192 ∧ sh = 192))
    (hread : st.read sp = some (File.png (Img.srcI id sw sh a)))
    (hdecok : env.decodeOk sp = true) (hwr : env.writeOk op = true) :
    ∃ f : File,
      resize_image env st sp op (some ⟨192, 192⟩) true true = (true, st.write op f) ∧
      fileSize f = ⟨192, 192⟩ ∧
      (fileContent f).w ≤ 134 ∧ (fileContent f).h ≤ 134 ∧
      29 ≤ (fileContent f).x ∧ 29 ≤ (fileContent f).y ∧
      (fileContent f).x + (fileContent f).w + 29 ≤ 192 ∧
      (fileContent f).y + (fileContent f).h + 29 ≤ 192 := by
  have h := resize_image_eq env st sp op (File.png (Img.srcI id sw sh a))
    (Img.srcI id sw sh a) (some ⟨192, 192⟩) true true hread rfl hdecok hwr
  have hsz : ¬((Img.srcI id sw sh a).size =
      ((some (Sz.mk 192 192)).getD (Img.srcI id sw sh a).size)) := by
    simpa [Img.size, Sz.mk.injEq] using hne
  rw [if_neg hsz] at h
  refine ⟨File.png (resizedImg (Img.srcI id sw sh a) ⟨192, 192⟩ true true), h, rfl, ?_⟩
  have hc : fileContent (File.png (resizedImg (Img.srcI id sw sh a) ⟨192, 192⟩ true true)) =
      ⟨(192 - (thumbSize sw sh 134 134).w) / 2, (192 - (thumbSize sw sh 134 134).h) / 2,
       (thumbSize sw sh 134 134).w, (thumbSize sw sh 134 134).h⟩ := rfl
  have hle := thumbSize_le (w := sw) (h := sh) (x := 134) (y := 134) hsw hsh
    (by decide) (by decide)
  rw [hc]
  dsimp only
  exact ⟨hle.1, hle.2, by omega, by omega, by omega, by omega⟩

/-- Witness for C2 at a concrete input: the 1024×1024 icon master under
the safe-margin transform to 192×192. -/
theorem claim_C2_witness :
    ∃ f : File,
      resize_image allOk wSt iconMaster "c2w.png" (some ⟨192, 192⟩) true true =
        (true, wSt.write "c2w.png" f) ∧
      fileSize f = ⟨192, 192⟩ ∧
      (fileContent f).w ≤ 134 ∧ (fileContent f).h ≤ 134 ∧
      29 ≤ (fileContent f).x ∧ 29 ≤ (fileContent f).y ∧
      (fileContent f).x + (fileContent f).w + 29 ≤ 192 ∧
      (fileContent f).y + (fileContent f).h + 29 ≤ 192 :=
  claim_C2 allOk wSt iconMaster "c2w.png" 1 1024 1024 true
    (by decide) (by decide) (by decide) rfl rfl rfl

/-! ### Claim C7: the web-manifest update -/

theorem find?_map_setKey_same (m : List (String × JVal)) (k : String) (v : JVal)
    (h : m.any (fun e => e.1 == k) = true) :
    (m.map (fun e => if e.1 == k then (k, v) else e)).find? (fun e => e.1 == k) =
      some (k, v) := by
  induction m with
  | nil => simp at h
  | cons e t ih =>
    cases hbeq : (e.1 == k) with
    | true =>
      have h1 : (if e.1 == k then (k, v) else e) = (k, v) := by simp [hbeq]
      rw [List.map_cons, h1, List.find?_cons]
      simp
    | false =>
      simp only [List.any_cons, hbeq, Bool.false_or] at h
      simp only [List.map_cons, hbeq, Bool.false_eq_true, if_false, List.find?_cons]
      exact ih h

theorem find?_append_setKey_same (m : List (String × JVal)) (k : String) (v : JVal)
    (h : m.any (fun e => e.1 == k) = false) :
    (m ++ [(k, v)]).find? (fun e => e.1 == k) = some (k, v) := by
  induction m with
  | nil => simp [List.find?_cons]
  | cons e t ih =>
    simp only [List.any_cons, Bool.or_eq_false_iff] at h
    simp only [List.cons_append, List.find?_cons, h.1]
    exact ih h.2

theorem find?_map_setKey_ne (m : List (String × JVal)) (k : String) (v : JVal)
    (q : String) (hq : q ≠ k) :
    (m.map (fun e => if e.1 == k then (k, v) else e)).find? (fun e => e.1 == q) =
      m.find? (fun e => e.1 == q) := by
  have hkq : (k == q) = false := beq_eq_false_iff_ne.mpr (fun hh => hq hh.symm)
  induction m with
  | nil => rfl
  | cons e t ih =>
    cases hbeq : (e.1 == k) with
    | true =>
      have hek : e.1 = k := by simpa using hbeq
      have heq : (e.1 == q) = false := by rw [hek]; exact hkq
      have h1 : (if e.1 == k then (k, v) else e) = (k, v) := by simp [hbeq]
      rw [List.map_cons, h1, List.find?_cons, List.find?_cons]
      rw [show ((k, v).1 == q) = false from hkq, heq]
      exact ih
    | false =>
      simp only [List.map_cons, hbeq, Bool.false_eq_true, if_false, List.find?_cons]
      cases heq : (e.1 == q) with
      | true => rfl
      | false => exact ih

theorem getKey_setKey_same (m : List (String × JVal)) (k : String) (v : JVal) :
    getKey (setKey m k v) k = some v := by
  unfold getKey setKey
  by_cases h : m.any (fun e => e.1 == k) = true
  · rw [if_pos h, find?_map_setKey_same m k v h]
  · rw [if_neg h, find?_append_setKey_same m k v (Bool.eq_false_iff.mpr h)]

theorem getKey_setKey_ne (m : List (String × JVal)) (k : String) (v : JVal)
    (q : String) (hq : q ≠ k) :
    getKey (setKey m k v) q = getKey m q := by
  unfold getKey setKey
  by_cases h : m.any (fun e => e.1 == k) = true
  · rw [if_pos h, find?_map_setKey_ne m k v q hq]
  · rw [if_neg h, List.find?_append]
    have h2 : ([(k, v)].find? (fun e => e.1 == q)) = none := by
      have : ((k, v).1 == q) = false := beq_eq_false_iff_ne.mpr (fun hh => hq hh.symm)
      simp [List.find?_cons, this]
    rw [h2]
    cases m.find? (fun e => e.1 == q) <;> rfl

/-- Claim C7 (confirmed): when the manifest document exists and is a JSON
object, the update rewrites exactly its `icons` member to the fixed
two-entry array (192×192 and 512×512 at the fixed icon paths) and leaves
the value of every other member unchanged; when the manifest does not
exist, the update is skipped with a warning, performs no write, and the
run continues normally. -/
theorem claim_C7 (env : Env) (st : St) :
    (st.existsP manifestPath = false →
      update_manifest_json env st = st.logMsg .warnManifestMissing) ∧
    (∀ m : List (String × JVal),
      st.read manifestPath = some (File.jsonF (JVal.obj m)) →
      env.writeOk manifestPath = true →
      update_manifest_json env st =
        st.write manifestPath (File.jsonF (JVal.obj (setKey m "icons" iconsValue))) ∧
      getKey (setKey m "icons" iconsValue) "icons" = some iconsValue ∧
      iconsValue = JVal.arr [
        JVal.obj [("src", .str "/icons/icon-192x192.png"), ("sizes", .str "192x192"),
                  ("type", .str "image/png")],
        JVal.obj [("src", .str "/icons/icon-512x512.png"), ("sizes", .str "512x512"),
                  ("type", .str "image/png")]] ∧
      ∀ q, q ≠ "icons" → getKey (setKey m "icons" iconsValue) q = getKey m q) := by
  constructor
  · intro hmiss
    unfold update_manifest_json
    rw [hmiss]
    rfl
  · intro m hread hwr
    have hex : st.existsP manifestPath = true := by
      unfold St.existsP
      rw [hread]
      rfl
    refine ⟨?_, getKey_setKey_same m "icons" iconsValue, rfl,
      fun q hq => getKey_setKey_ne m "icons" iconsValue q hq⟩
    unfold update_manifest_json
    rw [hex]
    simp only [Bool.true_eq_false, if_false]
    rw [hread, hwr]
    simp

/-- Witness for C7 at a concrete input: the manifest of `wFS`, which has
`name`, `icons` and `theme_color` members. -/
theorem claim_C7_witness :
    update_manifest_json allOk wSt =
      wSt.write manifestPath (File.jsonF (JVal.obj (setKey
        [("name", .str "App"), ("icons", .arr []), ("theme_color", .str "#000000")]
        "icons" iconsValue))) ∧
    getKey (setKey
        [("name", .str "App"), ("icons", .arr []), ("theme_color", .str "#000000")]
        "icons" iconsValue) "icons" = some iconsValue ∧
    iconsValue = JVal.arr [
      JVal.obj [("src", .str "/icons/icon-192x192.png"), ("sizes", .str "192x192"),
                ("type", .str "image/png")],
      JVal.obj [("src", .str "/icons/icon-512x512.png"), ("sizes", .str "512x512"),
                ("type", .str "image/png")]] ∧
    ∀ q, q ≠ "icons" → getKey (setKey
        [("name", .str "App"), ("icons", .arr []), ("theme_color", .str "#000000")]
        "icons" iconsValue) q =
      getKey [("name", .str "App"), ("icons", .arr []), ("theme_color", .str "#000000")] q :=
  (claim_C7 allOk wSt).2
    [("name", .str "App"), ("icons", .arr []), ("theme_color", .str "#000000")] rfl rfl

/-! ### Claim C8: per-catalog success counting -/

/-- A task with an unreadable or undecodable source fails, logging the
destination, and leaves the filesystem untouched. -/
theorem resize_image_fail (env : Env) (st : St) (sp op : String) (size : Option Sz)
    (ma ad : Bool) (hbad : sourceOkB env st ⟨sp, op, size, ma, ad⟩ = false) :
    resize_image env st sp op size ma ad = (false, st.logMsg (.errorCreating op)) := by
  unfold sourceOkB at hbad
  dsimp only at hbad
  unfold resize_image resize_image_try
  cases hr : st.read sp with
  | none => rfl
  | some f =>
    rw [hr] at hbad
    dsimp only at hbad
    dsimp only
    cases hdk : env.decodeOk sp with
    | false => rfl
    | true =>
      rw [hdk] at hbad
      simp only [Bool.true_and] at hbad
      cases hfd : f.dec with
      | none => rfl
      | some img => rw [hfd] at hbad; simp at hbad

/-- A task with a readable, decodable source and writable destination
succeeds, writing exactly one file at the destination. -/
theorem resize_image_ok (env : Env) (st : St) (sp op : String) (size : Option Sz)
    (ma ad : Bool) (hgood : sourceOkB env st ⟨sp, op, size, ma, ad⟩ = true)
    (hwr : env.writeOk op = true) :
    ∃ f, resize_image env st sp op size ma ad = (true, st.write op f) := by
  unfold sourceOkB at hgood
  dsimp only at hgood
  cases hr : st.read sp with
  | none => rw [hr] at hgood; simp at hgood
  | some f =>
    rw [hr] at hgood
    dsimp only at hgood
    simp only [Bool.and_eq_true] at hgood
    obtain ⟨hd, hdec⟩ := hgood
    cases hfd : f.dec with
    | none => rw [hfd] at hdec; simp at hdec
    | some img => exact ⟨_, resize_image_eq env st sp op f img size ma ad hr hfd hd hwr⟩

/-- Writing to a path other than a task's source does not change whether
that task's source is readable. -/
theorem sourceOkB_write (env : Env) (st : St) (t : AssetTask) (p : String) (f : File)
    (hne : t.src ≠ p) :
    sourceOkB env (st.write p f) t = sourceOkB env st t := by
  unfold sourceOkB
  rw [St.read_write_ne st p t.src f hne]

/-- Logging does not change source readability. -/
theorem sourceOkB_logMsg (env : Env) (st : St) (m : LogMsg) (t : AssetTask) :
    sourceOkB env (st.logMsg m) t = sourceOkB env st t := rfl

theorem filter_split_length {α : Type} (l : List α) (p : α → Bool) :
    (l.filter p).length + (l.filter (fun a => !(p a))).length = l.length := by
  induction l with
  | nil => rfl
  | cons a t ih =>
    cases hp : p a <;> simp [List.filter_cons, hp] <;> omega

/-- A generator loop counts exactly the tasks whose source is readable,
provided every destination is writable and no task reads another task's
output. -/
theorem runCatalogFrom_count (env : Env) (tasks : List AssetTask) :
    ∀ (st : St) (n : ℕ),
    (∀ t ∈ tasks, env.writeOk t.dst = true) →
    (∀ t ∈ tasks, ∀ u ∈ tasks, t.src ≠ u.dst) →
    (runCatalogFrom env tasks (n, st)).1 =
      n + (tasks.filter (fun t => sourceOkB env st t)).length := by
  induction tasks with
  | nil => intro st n _ _; simp [runCatalogFrom]
  | cons t ts ih =>
    intro st n hw hd
    have hstep : runCatalogFrom env (t :: ts) (n, st) =
        runCatalogFrom env ts (runTask env t (n, st)) := rfl
    rw [hstep]
    cases hok : sourceOkB env st t with
    | true =>
      obtain ⟨f, hf⟩ := resize_image_ok env st t.src t.dst t.size t.ma t.ad hok
        (hw t (List.mem_cons_self t ts))
      have hrt : runTask env t (n, st) = (n + 1, st.write t.dst f) := by
        unfold runTask
        rw [hf]
        rfl
      rw [hrt, ih (st.write t.dst f) (n + 1)
        (fun u hu => hw u (List.mem_cons_of_mem t hu))
        (fun u hu v hv => hd u (List.mem_cons_of_mem t hu) v (List.mem_cons_of_mem t hv))]
      have hfilter : ts.filter (fun u => sourceOkB env (st.write t.dst f) u) =
          ts.filter (fun u => sourceOkB env st u) := by
        apply List.filter_congr
        intro u hu
        exact sourceOkB_write env st u t.dst f
          (hd u (List.mem_cons_of_mem t hu) t (List.mem_cons_self t ts))
      rw [hfilter]
      simp only [List.filter_cons, hok, if_true, List.length_cons]
      omega
    | false =>
      have hfail := resize_image_fail env st t.src t.dst t.size t.ma t.ad hok
      have hrt : runTask env t (n, st) = (n, st.logMsg (.errorCreating t.dst)) := by
        unfold runTask
        rw [hfail]
        rfl
      rw [hrt, ih (st.logMsg (.errorCreating t.dst)) n
        (fun u hu => hw u (List.mem_cons_of_mem t hu))
        (fun u hu v hv => hd u (List.mem_cons_of_mem t hu) v (List.mem_cons_of_mem t hv))]
      have hfilter : ts.filter (fun u => sourceOkB env (st.logMsg (.errorCreating t.dst)) u) =
          ts.filter (fun u => sourceOkB env st u) := by
        apply List.filter_congr
        intro u hu
        exact sourceOkB_logMsg env st (.errorCreating t.dst) u
      rw [hfilter]
      simp only [List.filter_cons, hok, Bool.false_eq_true, if_false]

/-- Claim C8 (confirmed): for a catalog of N tasks of which K point at an
unreadable or corrupt source while all other tasks succeed (their
destinations are writable, and no task reads another task's output), the
reported result is `succeeded = N - K` out of `expected = N`. -/
theorem claim_C8 (env : Env) (st : St) (tasks : List AssetTask)
    (hw : ∀ t ∈ tasks, env.writeOk t.dst = true)
    (hd : ∀ t ∈ tasks, ∀ u ∈ tasks, t.src ≠ u.dst) :
    (runCatalog env tasks st).1 =
      tasks.length - (tasks.filter (fun t => !(sourceOkB env st t))).length ∧
    (runCatalog env tasks st).1 +
      (tasks.filter (fun t => !(sourceOkB env st t))).length = tasks.length := by
  have h := runCatalogFrom_count env tasks st 0 hw hd
  have hsplit := filter_split_length tasks (fun t => sourceOkB env st t)
  unfold runCatalog
  omega

/-- Witness for C8 at a concrete input: the two-task web-icon catalog over
a filesystem whose icon master is a corrupt (undecodable) file — K = 2,
N = 2, so 0 of 2 succeed. -/
theorem claim_C8_witness :
    ((runCatalog allOk (webIconTasks iconMaster)
        ⟨fun p => if p = iconMaster then some (File.raw 0) else none, [], []⟩).1 =
      (webIconTasks iconMaster).length -
        ((webIconTasks iconMaster).filter (fun t => !(sourceOkB allOk
          ⟨fun p => if p = iconMaster then some (File.raw 0) else none, [], []⟩ t))).length ∧
    (runCatalog allOk (webIconTasks iconMaster)
        ⟨fun p => if p = iconMaster then some (File.raw 0) else none, [], []⟩).1 +
      ((webIconTasks iconMaster).filter (fun t => !(sourceOkB allOk
          ⟨fun p => if p = iconMaster then some (File.raw 0) else none, [], []⟩ t))).length =
      (webIconTasks iconMaster).length) ∧
    (webIconTasks iconMaster).length = 2 ∧
    ((webIconTasks iconMaster).filter (fun t => !(sourceOkB allOk
        ⟨fun p => if p = iconMaster then some (File.raw 0) else none, [], []⟩ t))).length = 2 ∧
    (runCatalog allOk (webIconTasks iconMaster)
        ⟨fun p => if p = iconMaster then some (File.raw 0) else none, [], []⟩).1 = 0 :=
  ⟨claim_C8 allOk ⟨fun p => if p = iconMaster then some (File.raw 0) else none, [], []⟩
      (webIconTasks iconMaster) (by decide) (by decide),
    by decide, by decide, by decide⟩

/-! ### Claims C5 and C6: error handling and the pre-flight gate -/

/-- When the destination cannot be written, `resize_image` fails and logs
the destination, whatever the source. -/
theorem resize_image_wfail (env : Env) (st : St) (sp op : String) (size : Option Sz)
    (ma ad : Bool) (hwr : env.writeOk op = false) :
    resize_image env st sp op size ma ad = (false, st.logMsg (.errorCreating op)) := by
  unfold resize_image resize_image_try
  cases hr : st.read sp with
  | none => rfl
  | some f =>
    dsimp only
    cases hdk : env.decodeOk sp with
    | false => rfl
    | true =>
      cases hfd : f.dec with
      | none => rfl
      | some img =>
        dsimp only
        by_cases hsz : img.size = size.getD img.size
        · rw [if_pos hsz, hwr]
          rfl
        · rw [if_neg hsz, hwr]
          rfl

/-- Claim C5 (corrected, amended part): every `resize_image` task is
total — any decode, encode or filesystem error inside it is caught at the
task boundary — and its outcome is either success with exactly one write
to the destination, or a `False` result together with a logged
`❌ Error creating {destination}` message; no exception escapes an image
task into the enclosing catalog run.  (The adaptive-icon XML writes are
not performed through `resize_image` and are unprotected; see the
counterexample.) -/
theorem claim_C5 (env : Env) (st : St) (sp op : String) (size : Option Sz) (ma ad : Bool) :
    (∃ f, resize_image env st sp op size ma ad = (true, st.write op f)) ∨
    resize_image env st sp op size ma ad = (false, st.logMsg (.errorCreating op)) := by
  cases hok : sourceOkB env st ⟨sp, op, size, ma, ad⟩ with
  | false => exact Or.inr (resize_image_fail env st sp op size ma ad hok)
  | true =>
    cases hwr : env.writeOk op with
    | true => exact Or.inl (resize_image_ok env st sp op size ma ad hok hwr)
    | false => exact Or.inr (resize_image_wfail env st sp op size ma ad hwr)

/-- Counterexample to C5 as stated: in an environment where writing the
adaptive-icon XML file raises an OS error, the error escapes
`generate_android_icons` and aborts the whole catalog run (and `main`),
instead of being converted into a per-task failure. -/
theorem claim_C5_counterexample :
    errPath (generate_android_icons xmlFailEnv iconMaster wSt) = some xmlPath1 := by decide

/-- With both XML destinations writable, the adaptive-icon XML writer
never raises. -/
theorem create_xmls_never_error (env : Env)
    (h1 : env.writeOk xmlPath1 = true) (h2 : env.writeOk xmlPath2 = true)
    (st : St) (e : PyErr × St) :
    create_android_adaptive_icon_xmls env st ≠ .error e := by
  unfold create_android_adaptive_icon_xmls
  rw [h1, h2]
  simp

/-- With both Contents.json destinations writable, the iOS metadata
writer never raises. -/
theorem create_contents_never_error (env : Env)
    (h1 : env.writeOk contentsPath1 = true) (h2 : env.writeOk contentsPath2 = true)
    (st : St) (e : PyErr × St) :
    create_ios_contents_json env st ≠ .error e := by
  unfold create_ios_contents_json
  rw [h1, h2]
  simp

/-- With both XML destinations writable, `generate_android_icons` never
raises. -/
theorem generate_android_icons_never_error (env : Env) (p : String)
    (h1 : env.writeOk xmlPath1 = true) (h2 : env.writeOk xmlPath2 = true)
    (st : St) (e : PyErr × St) :
    generate_android_icons env p st ≠ .error e := by
  unfold generate_android_icons
  intro h
  dsimp only at h
  split at h
  · simp at h
  · exact create_xmls_never_error env h1 h2 _ _ (by assumption)

/-- Claim C6 (corrected): if any required master image is absent at the
start, the run writes nothing and exits with failure status (`sys.exit(1)`)
before attempting any generation task; with all masters present, per-task
failures (unreadable sources, failed image writes) never abort the run —
it completes normally whenever the four unprotected metadata writes (two
adaptive-icon XMLs, two Contents.json files) can be written.  (The
converse of the claim is false: an OS error in those unprotected writes
also aborts the run with a non-zero status; see the counterexample.) -/
theorem claim_C6 (env : Env) (fs : FS) :
    ((masterImagePaths.filter (fun p => !((St.mk fs [] []).existsP p))) ≠ [] →
      mainRun env fs = .ok (.exitFail,
        (St.mk fs [] []).logMsg (.missingMasters
          (masterImagePaths.filter (fun p => !((St.mk fs [] []).existsP p))))) ∧
      mainWrites env fs = []) ∧
    ((masterImagePaths.filter (fun p => !((St.mk fs [] []).existsP p))) = [] →
      env.writeOk xmlPath1 = true → env.writeOk xmlPath2 = true →
      env.writeOk contentsPath1 = true → env.writeOk contentsPath2 = true →
      ∃ n st, mainRun env fs = .ok (.done n, st)) := by
  constructor
  · intro hmiss
    have hrun : mainRun env fs = .ok (.exitFail,
        (St.mk fs [] []).logMsg (.missingMasters
          (masterImagePaths.filter (fun p => !((St.mk fs [] []).existsP p))))) := by
      unfold mainRun
      rw [if_neg hmiss]
    refine ⟨hrun, ?_⟩
    unfold mainWrites
    rw [hrun]
    rfl
  · intro hmiss hx1 hx2 hc1 hc2
    unfold mainRun
    rw [if_pos hmiss]
    unfold mainPipeline
    dsimp only
    split
    · exact absurd (by assumption)
        (generate_android_icons_never_error env iconMaster hx1 hx2 _ _)
    · split
      · exact absurd (by assumption)
          (create_contents_never_error env hc1 hc2 _ _)
      · exact ⟨_, _, rfl⟩

/-- Counterexample to C6 as stated ("aborts with non-zero status only
when a master is missing"): over `wFS` every required master exists, yet
the run aborts — with the non-zero exit of an uncaught exception — when
writing an adaptive-icon XML file raises an OS error. -/
theorem claim_C6_counterexample :
    (masterImagePaths.filter (fun p => !(wSt.existsP p))) = [] ∧
    errPath (mainRun xmlFailEnv wFS) = some xmlPath1 := by
  constructor
  · decide
  · decide

/-- Witness for C6 at concrete inputs: over the empty filesystem the run
exits before any task with all seven masters reported missing and no
writes; over `wFS` it completes. -/
theorem claim_C6_witness :
    (mainRun allOk (fun _ => none) = .ok (.exitFail,
        (St.mk (fun _ => none) [] []).logMsg (.missingMasters
          (masterImagePaths.filter (fun p => !((St.mk (fun _ => none) [] []).existsP p))))) ∧
      mainWrites allOk (fun _ => none) = []) ∧
    ∃ n st, mainRun allOk wFS = .ok (.done n, st) :=
  ⟨(claim_C6 allOk (fun _ => none)).1 (by decide),
   (claim_C6 allOk wFS).2 (by decide) rfl rfl rfl rfl⟩

theorem St.read_def (s : St) (p : String) :
    s.read p = (match s.writes.find? (fun e => e.1 == p) with
      | some e => some e.2
      | none => s.base p) := rfl

theorem SimW_id (D : List String) (s1 s2 : St) : SimW D s1 s2 s1 s2 :=
  ⟨[], rfl, rfl, by simp, rfl, rfl⟩

theorem SimW_log (D : List String) (s1 s2 : St) (m1 m2 : LogMsg) :
    SimW D s1 s2 (s1.logMsg m1) (s2.logMsg m2) :=
  ⟨[], rfl, rfl, by simp, rfl, rfl⟩

theorem SimW_write (D : List String) (s1 s2 : St) (p : String) (f : File) (hp : p ∈ D) :
    SimW D s1 s2 (s1.write p f) (s2.write p f) :=
  ⟨[(p, f)], rfl, rfl, by simpa using hp, rfl, rfl⟩

theorem SimW.trans {D1 D2 : List String} {s1 s2 t1 t2 u1 u2 : St}
    (h1 : SimW D1 s1 s2 t1 t2) (h2 : SimW D2 t1 t2 u1 u2) :
    SimW (D1 ++ D2) s1 s2 u1 u2 := by
  obtain ⟨W1, a1, b1, c1, d1, e1⟩ := h1
  obtain ⟨W2, a2, b2, c2, d2, e2⟩ := h2
  refine ⟨W2 ++ W1, ?_, ?_, ?_, ?_, ?_⟩
  · rw [a2, a1, List.append_assoc]
  · rw [b2, b1, List.append_assoc]
  · intro e he
    rcases List.mem_append.mp he with h | h
    · exact List.mem_append_right _ (c2 e h)
    · exact List.mem_append_left _ (c1 e h)
  · rw [d2, d1]
  · rw [e2, e1]

theorem SimW.mono {D D' : List String} {s1 s2 s1' s2' : St}
    (hD : ∀ p ∈ D, p ∈ D') (h : SimW D s1 s2 s1' s2') : SimW D' s1 s2 s1' s2' := by
  obtain ⟨W, a1, b1, c1, d1, e1⟩ := h
  exact ⟨W, a1, b1, fun e he => hD e.1 (c1 e he), d1, e1⟩

theorem read_SimW_cases {D : List String} {s1 s2 s1' s2' : St}
    (h : SimW D s1 s2 s1' s2') (p : String) :
    s1'.read p = s2'.read p ∨ (s1'.read p = s1.read p ∧ s2'.read p = s2.read p) := by
  obtain ⟨W, a1, b1, _, d1, e1⟩ := h
  rw [St.read_def s1', St.read_def s2', a1, b1, List.find?_append, List.find?_append]
  cases hW : W.find? (fun e => e.1 == p) with
  | some e => left; rfl
  | none =>
    right
    constructor
    · rw [St.read_def s1, d1]
      rfl
    · rw [St.read_def s2, e1]
      rfl

theorem read_SimW_not_mem {D : List String} {s1 s2 s1' s2' : St}
    (h : SimW D s1 s2 s1' s2') (p : String) (hp : p ∉ D) :
    s1'.read p = s1.read p ∧ s2'.read p = s2.read p := by
  obtain ⟨W, a1, b1, c1, d1, e1⟩ := h
  have hW : W.find? (fun e => e.1 == p) = none := by
    rw [List.find?_eq_none]
    intro e he
    have : e.1 ∈ D := c1 e he
    intro hbe
    exact hp (by rwa [show e.1 = p from by simpa using hbe] at this)
  constructor
  · rw [St.read_def s1', St.read_def s1, a1, List.find?_append, hW, d1]
    rfl
  · rw [St.read_def s2', St.read_def s2, b1, List.find?_append, hW, e1]
    rfl

theorem agreeOn_of_SimW {D R : List String} {s1 s2 s1' s2' : St}
    (h : SimW D s1 s2 s1' s2') (hag : agreeOn R s1 s2) : agreeOn R s1' s2' := by
  intro p hp
  rcases read_SimW_cases h p with h1 | ⟨h1, h2⟩
  · exact h1
  · rw [h1, h2]
    exact hag p hp

/-- In the error-free environment, `resize_image` behaves identically from
two states that agree on the source path, appending the same write. -/
theorem resize_sim (s1 s2 : St) (sp op : String) (size : Option Sz) (ma ad : Bool)
    (h : s1.read sp = s2.read sp) :
    (resize_image allOk s1 sp op size ma ad).1 = (resize_image allOk s2 sp op size ma ad).1 ∧
    SimW [op] s1 s2 (resize_image allOk s1 sp op size ma ad).2
      (resize_image allOk s2 sp op size ma ad).2 := by
  unfold resize_image resize_image_try
  rw [h]
  cases hr : s2.read sp with
  | none => exact ⟨rfl, SimW_log _ _ _ _ _⟩
  | some f =>
    dsimp only
    cases hfd : f.dec with
    | none => exact ⟨rfl, SimW_log _ _ _ _ _⟩
    | some img =>
      dsimp only
      by_cases hsz : img.size = size.getD img.size
      · rw [if_pos hsz, if_pos hsz]
        exact ⟨rfl, SimW_write _ _ _ _ _ (List.mem_singleton_self op)⟩
      · rw [if_neg hsz, if_neg hsz]
        exact ⟨rfl, SimW_write _ _ _ _ _ (List.mem_singleton_self op)⟩

/-- In the error-free environment, a generator loop behaves identically
from two states that agree on all its source paths. -/
theorem runCatalogFrom_sim (tasks : List AssetTask) :
    ∀ (n : ℕ) (s1 s2 : St) (R : List String),
    (∀ t ∈ tasks, t.src ∈ R) →
    agreeOn R s1 s2 →
    (runCatalogFrom allOk tasks (n, s1)).1 = (runCatalogFrom allOk tasks (n, s2)).1 ∧
    SimW (tasks.map (fun t => t.dst)) s1 s2
      (runCatalogFrom allOk tasks (n, s1)).2 (runCatalogFrom allOk tasks (n, s2)).2 := by
  induction tasks with
  | nil =>
    intro n s1 s2 R _ hag
    exact ⟨rfl, SimW_id _ _ _⟩
  | cons t ts ih =>
    intro n s1 s2 R hsrc hag
    have hread : s1.read t.src = s2.read t.src :=
      hag t.src (hsrc t (List.mem_cons_self t ts))
    obtain ⟨hb, hsim⟩ := resize_sim s1 s2 t.src t.dst t.size t.ma t.ad hread
    have hstep1 : runCatalogFrom allOk (t :: ts) (n, s1) =
        runCatalogFrom allOk ts (runTask allOk t (n, s1)) := rfl
    have hstep2 : runCatalogFrom allOk (t :: ts) (n, s2) =
        runCatalogFrom allOk ts (runTask allOk t (n, s2)) := rfl
    rw [hstep1, hstep2]
    have hrt1 : runTask allOk t (n, s1) =
        (n + (if (resize_image allOk s1 t.src t.dst t.size t.ma t.ad).1 then 1 else 0),
         (resize_image allOk s1 t.src t.dst t.size t.ma t.ad).2) := rfl
    have hrt2 : runTask allOk t (n, s2) =
        (n + (if (resize_image allOk s2 t.src t.dst t.size t.ma t.ad).1 then 1 else 0),
         (resize_image allOk s2 t.src t.dst t.size t.ma t.ad).2) := rfl
    rw [hrt1, hrt2, hb]
    have hag2 := agreeOn_of_SimW hsim hag
    obtain ⟨hb2, hsim2⟩ := ih
      (n + (if (resize_image allOk s2 t.src t.dst t.size t.ma t.ad).1 then 1 else 0))
      (resize_image allOk s1 t.src t.dst t.size t.ma t.ad).2
      (resize_image allOk s2 t.src t.dst t.size t.ma t.ad).2
      R (fun u hu => hsrc u (List.mem_cons_of_mem t hu)) hag2
    refine ⟨hb2, ?_⟩
    have := hsim.trans hsim2
    simpa using this

theorem icon192After_idem (v w : Option File) :
    icon192After v (icon192After v w) = icon192After v w := by
  cases v with
  | none => rfl
  | some f => cases hfd : f.dec <;> simp [icon192After, hfd]

theorem map_setKey_id (m : List (String × JVal)) (k : String) (v : JVal)
    (hall : ∀ e ∈ m, (e.1 == k) = false) :
    m.map (fun e => if e.1 == k then (k, v) else e) = m := by
  induction m with
  | nil => rfl
  | cons e t ih =>
    have h1 := hall e (List.mem_cons_self e t)
    simp only [List.map_cons, h1, Bool.false_eq_true, if_false]
    rw [ih (fun u hu => hall u (List.mem_cons_of_mem e hu))]

/-- Python dict assignment is idempotent: setting the same key to the
same value twice equals setting it once. -/
theorem setKey_setKey (m : List (String × JVal)) (k : String) (v : JVal) :
    setKey (setKey m k v) k v = setKey m k v := by
  unfold setKey
  by_cases h : m.any (fun e => e.1 == k) = true
  · rw [if_pos h]
    have h2 : (m.map (fun e => if e.1 == k then (k, v) else e)).any
        (fun e => e.1 == k) = true := by
      rw [List.any_eq_true] at h ⊢
      obtain ⟨e, he, hp⟩ := h
      refine ⟨(k, v), ?_, by simp⟩
      have heq : (if e.1 == k then (k, v) else e) = (k, v) := by simp [hp]
      exact List.mem_map.mpr ⟨e, he, heq⟩
    rw [if_pos h2, List.map_map]
    have hfe : ((fun e : String × JVal => if e.1 == k then (k, v) else e) ∘
        (fun e => if e.1 == k then (k, v) else e)) =
        (fun e => if e.1 == k then (k, v) else e) := by
      funext e
      by_cases he : e.1 = k <;> simp [he]
    rw [hfe]
  · rw [if_neg h]
    have h2 : ((m ++ [(k, v)]).any (fun e => e.1 == k)) = true := by
      simp [List.any_append]
    rw [if_pos h2, List.map_append]
    have hmap : m.map (fun e => if e.1 == k then (k, v) else e) = m := by
      apply map_setKey_id
      intro e he
      rcases Bool.eq_false_or_eq_true (e.1 == k) with ht | hf
      · exact absurd (List.any_eq_true.mpr ⟨e, he, ht⟩) h
      · exact hf
    rw [hmap]
    simp

/-- Normal form of `update_manifest_json` in the error-free environment. -/
theorem update_manifest_eq (t : St) :
    update_manifest_json allOk t =
      (match t.read manifestPath with
       | some (File.jsonF (JVal.obj m)) =>
           t.write manifestPath (File.jsonF (JVal.obj (setKey m "icons" iconsValue)))
       | some (File.jsonF (JVal.str s)) => t.logMsg .errorUpdatingManifest
       | some (File.jsonF (JVal.num n)) => t.logMsg .errorUpdatingManifest
       | some (File.jsonF (JVal.arr xs)) => t.logMsg .errorUpdatingManifest
       | some (File.png i) => t.logMsg .errorUpdatingManifest
       | some (File.xmlF s) => t.logMsg .errorUpdatingManifest
       | some (File.raw id) => t.logMsg .errorUpdatingManifest
       | none => t.logMsg .warnManifestMissing) := by
  unfold update_manifest_json
  cases hr : t.read manifestPath with
  | none =>
    have e1 : t.existsP manifestPath = false := by
      unfold St.existsP
      rw [hr]
      rfl
    rw [e1]
    rfl
  | some f =>
    have e1 : t.existsP manifestPath = true := by
      unfold St.existsP
      rw [hr]
      rfl
    rw [e1]
    cases f with
    | jsonF j => cases j <;> rfl
    | png i => rfl
    | xmlF s => rfl
    | raw id => rfl

/-- After the manifest update, the manifest path reads as `manifestAfter`
of its previous content. -/
theorem manifest_after_read (t : St) :
    (update_manifest_json allOk t).read manifestPath =
      manifestAfter (t.read manifestPath) := by
  rw [update_manifest_eq]
  cases hr : t.read manifestPath with
  | none => rw [St.read_logMsg, hr]; rfl
  | some f =>
    cases f with
    | jsonF j =>
      cases j with
      | obj m => rw [St.read_write_self]; rfl
      | str s => rw [St.read_logMsg, hr]; rfl
      | num n => rw [St.read_logMsg, hr]; rfl
      | arr xs => rw [St.read_logMsg, hr]; rfl
    | png i => rw [St.read_logMsg, hr]; rfl
    | xmlF s => rw [St.read_logMsg, hr]; rfl
    | raw id => rw [St.read_logMsg, hr]; rfl

/-- The manifest update behaves identically (same appended write) from a
state reading the original manifest and one reading the already-updated
manifest — the key idempotence fact for re-running the tool. -/
theorem manifest_sim (t1 t2 : St)
    (h : t2.read manifestPath = t1.read manifestPath ∨
         t2.read manifestPath = manifestAfter (t1.read manifestPath)) :
    SimW [manifestPath] t1 t2 (update_manifest_json allOk t1)
      (update_manifest_json allOk t2) := by
  rw [update_manifest_eq t1, update_manifest_eq t2]
  cases hr1 : t1.read manifestPath with
  | none =>
    have h2 : t2.read manifestPath = none := by
      rcases h with h | h <;> rw [h, hr1] <;> rfl
    rw [h2]
    exact SimW_log _ _ _ _ _
  | some f =>
    cases f with
    | jsonF j =>
      cases j with
      | obj m =>
        have h2 : t2.read manifestPath = some (File.jsonF (JVal.obj m)) ∨
            t2.read manifestPath =
              some (File.jsonF (JVal.obj (setKey m "icons" iconsValue))) := by
          rcases h with h | h
          · left; rw [h, hr1]
          · right; rw [h, hr1]; rfl
        rcases h2 with h2 | h2 <;> rw [h2] <;> dsimp only
        · exact SimW_write _ _ _ _ _ (List.mem_singleton_self manifestPath)
        · rw [setKey_setKey]
          exact SimW_write _ _ _ _ _ (List.mem_singleton_self manifestPath)
      | str s =>
        have h2 : t2.read manifestPath = some (File.jsonF (JVal.str s)) := by
          rcases h with h | h <;> rw [h, hr1] <;> rfl
        rw [h2]
        exact SimW_log _ _ _ _ _
      | num n =>
        have h2 : t2.read manifestPath = some (File.jsonF (JVal.num n)) := by
          rcases h with h | h <;> rw [h, hr1] <;> rfl
        rw [h2]
        exact SimW_log _ _ _ _ _
      | arr xs =>
        have h2 : t2.read manifestPath = some (File.jsonF (JVal.arr xs)) := by
          rcases h with h | h <;> rw [h, hr1] <;> rfl
        rw [h2]
        exact SimW_log _ _ _ _ _
    | png i =>
      have h2 : t2.read manifestPath = some (File.png i) := by
        rcases h with h | h <;> rw [h, hr1] <;> rfl
      rw [h2]
      exact SimW_log _ _ _ _ _
    | xmlF s =>
      have h2 : t2.read manifestPath = some (File.xmlF s) := by
        rcases h with h | h <;> rw [h, hr1] <;> rfl
      rw [h2]
      exact SimW_log _ _ _ _ _
    | raw id =>
      have h2 : t2.read manifestPath = some (File.raw id) := by
        rcases h with h | h <;> rw [h, hr1] <;> rfl
      rw [h2]
      exact SimW_log _ _ _ _ _

theorem runTask_eq (env : Env) (t : AssetTask) (n : ℕ) (s : St) :
    runTask env t (n, s) =
      (n + (if (resize_image env s t.src t.dst t.size t.ma t.ad).1 then 1 else 0),
       (resize_image env s t.src t.dst t.size t.ma t.ad).2) := rfl

/-- What `generate_web_icons` leaves at the 192×192 icon path: the resize
of the icon master when it decodes (the direct copy when the master is
already 192×192), the previous content otherwise. -/
theorem web_icons_icon192 (s : St) :
    (generate_web_icons allOk iconMaster s).2.read icon192Path =
      icon192After (s.read iconMaster) (s.read icon192Path) := by
  have e0 : generate_web_icons allOk iconMaster s =
      runTask allOk ⟨iconMaster, "public/icons/icon-512x512.png", some ⟨512, 512⟩, true, false⟩
        (runTask allOk ⟨iconMaster, icon192Path, some ⟨192, 192⟩, true, false⟩ (0, s)) := rfl
  cases hr : s.read iconMaster with
  | none =>
    have h1 : resize_image allOk s iconMaster icon192Path (some ⟨192, 192⟩) true false =
        (false, s.logMsg (.errorCreating icon192Path)) :=
      resize_image_fail _ _ _ _ _ _ _ (by simp [sourceOkB, hr])
    have h2 : resize_image allOk (s.logMsg (.errorCreating icon192Path)) iconMaster
        "public/icons/icon-512x512.png" (some ⟨512, 512⟩) true false =
        (false, (s.logMsg (.errorCreating icon192Path)).logMsg
          (.errorCreating "public/icons/icon-512x512.png")) :=
      resize_image_fail _ _ _ _ _ _ _ (by simp [sourceOkB, St.read_logMsg, hr])
    have s1eq : runTask allOk ⟨iconMaster, icon192Path, some ⟨192, 192⟩, true, false⟩ (0, s) =
        (0, s.logMsg (.errorCreating icon192Path)) := by
      rw [runTask_eq]
      dsimp only
      rw [h1]
      rfl
    have s2eq : runTask allOk
        ⟨iconMaster, "public/icons/icon-512x512.png", some ⟨512, 512⟩, true, false⟩
        (0, s.logMsg (.errorCreating icon192Path)) =
        (0, (s.logMsg (.errorCreating icon192Path)).logMsg
          (.errorCreating "public/icons/icon-512x512.png")) := by
      rw [runTask_eq]
      dsimp only
      rw [h2]
      rfl
    rw [e0, s1eq, s2eq]
    dsimp only
    rw [St.read_logMsg, St.read_logMsg]
    simp [icon192After, hr]
  | some f =>
    cases hfd : f.dec with
    | none =>
      have h1 : resize_image allOk s iconMaster icon192Path (some ⟨192, 192⟩) true false =
          (false, s.logMsg (.errorCreating icon192Path)) :=
        resize_image_fail _ _ _ _ _ _ _ (by simp [sourceOkB, hr, hfd])
      have h2 : resize_image allOk (s.logMsg (.errorCreating icon192Path)) iconMaster
          "public/icons/icon-512x512.png" (some ⟨512, 512⟩) true false =
          (false, (s.logMsg (.errorCreating icon192Path)).logMsg
            (.errorCreating "public/icons/icon-512x512.png")) :=
        resize_image_fail _ _ _ _ _ _ _ (by simp [sourceOkB, St.read_logMsg, hr, hfd])
      have s1eq : runTask allOk ⟨iconMaster, icon192Path, some ⟨192, 192⟩, true, false⟩ (0, s) =
          (0, s.logMsg (.errorCreating icon192Path)) := by
        rw [runTask_eq]
        dsimp only
        rw [h1]
        rfl
      have s2eq : runTask allOk
          ⟨iconMaster, "public/icons/icon-512x512.png", some ⟨512, 512⟩, true, false⟩
          (0, s.logMsg (.errorCreating icon192Path)) =
          (0, (s.logMsg (.errorCreating icon192Path)).logMsg
            (.errorCreating "public/icons/icon-512x512.png")) := by
        rw [runTask_eq]
        dsimp only
        rw [h2]
        rfl
      rw [e0, s1eq, s2eq]
      dsimp only
      rw [St.read_logMsg, St.read_logMsg]
      simp [icon192After, hr, hfd]
    | some img =>
      have h1 := resize_image_eq allOk s iconMaster icon192Path f img
        (some ⟨192, 192⟩) true false hr hfd rfl rfl
      have hne1 : iconMaster ≠ icon192Path := by decide
      have hr1 : (s.write icon192Path (if img.size = (some (Sz.mk 192 192)).getD img.size
          then f else File.png (resizedImg img ((some (Sz.mk 192 192)).getD img.size)
            true false))).read iconMaster = some f := by
        rw [St.read_write_ne _ _ _ _ hne1]
        exact hr
      have h2 := resize_image_eq allOk
        (s.write icon192Path (if img.size = (some (Sz.mk 192 192)).getD img.size
          then f else File.png (resizedImg img ((some (Sz.mk 192 192)).getD img.size)
            true false)))
        iconMaster "public/icons/icon-512x512.png" f img
        (some ⟨512, 512⟩) true false hr1 hfd rfl rfl
      have s1eq : runTask allOk ⟨iconMaster, icon192Path, some ⟨192, 192⟩, true, false⟩ (0, s) =
          (1, s.write icon192Path (if img.size = (some (Sz.mk 192 192)).getD img.size
            then f else File.png (resizedImg img ((some (Sz.mk 192 192)).getD img.size)
              true false))) := by
        rw [runTask_eq]
        dsimp only
        rw [h1]
        rfl
      have s2eq : runTask allOk
          ⟨iconMaster, "public/icons/icon-512x512.png", some ⟨512, 512⟩, true, false⟩
          (1, s.write icon192Path (if img.size = (some (Sz.mk 192 192)).getD img.size
            then f else File.png (resizedImg img ((some (Sz.mk 192 192)).getD img.size)
              true false))) =
          (2, (s.write icon192Path (if img.size = (some (Sz.mk 192 192)).getD img.size
            then f else File.png (resizedImg img ((some (Sz.mk 192 192)).getD img.size)
              true false))).write "public/icons/icon-512x512.png"
              (if img.size = (some (Sz.mk 512 512)).getD img.size
                then f else File.png (resizedImg img ((some (Sz.mk 512 512)).getD img.size)
                  true false))) := by
        rw [runTask_eq]
        dsimp only
        rw [h2]
        rfl
      rw [e0, s1eq, s2eq]
      dsimp only
      have hne2 : icon192Path ≠ "public/icons/icon-512x512.png" := by decide
      rw [St.read_write_ne _ _ _ _ hne2, St.read_write_self]
      simp [icon192After, hfd]

theorem find?_congrP {α : Type} (l : List α) (p q : α → Bool)
    (h : ∀ a ∈ l, p a = q a) : l.find? p = l.find? q := by
  induction l with
  | nil => rfl
  | cons a t ih =>
    rw [List.find?_cons, List.find?_cons, h a (List.mem_cons_self a t)]
    cases hq : q a with
    | true => rfl
    | false => exact ih (fun u hu => h u (List.mem_cons_of_mem a hu))

theorem androidBg_eq (d : String) (size : ℕ) (n : ℕ) (s : St) :
    androidBg allOk d size (n, s) =
      (n + 1, s.write ("android/app/src/main/res/mipmap-" ++ d ++ "/ic_launcher_background.png")
        (File.png (Img.blankI size size))) := rfl

theorem create_xmls_eq (s : St) :
    create_android_adaptive_icon_xmls allOk s =
      .ok ((s.write xmlPath1 (File.xmlF adaptiveIconXml)).write xmlPath2
        (File.xmlF adaptiveIconXml)) := rfl

theorem create_contents_eq (s : St) :
    create_ios_contents_json allOk s =
      .ok ((s.write contentsPath1 (File.jsonF appiconContents)).write contentsPath2
        (File.jsonF splashContents)) := rfl

/-- Simulation for the per-density android loop body plus background. -/
theorem androidDensity_sim (d : String × ℕ) (n : ℕ) (s1 s2 : St)
    (hag : agreeOn Rrun s1 s2) :
    (androidBg allOk d.1 d.2 (runCatalogFrom allOk (androidDensityTasks iconMaster d.1 d.2) (n, s1))).1 =
      (androidBg allOk d.1 d.2 (runCatalogFrom allOk (androidDensityTasks iconMaster d.1 d.2) (n, s2))).1 ∧
    SimW ((androidDensityTasks iconMaster d.1 d.2).map (fun t => t.dst) ++
        ["android/app/src/main/res/mipmap-" ++ d.1 ++ "/ic_launcher_background.png"])
      s1 s2
      (androidBg allOk d.1 d.2 (runCatalogFrom allOk (androidDensityTasks iconMaster d.1 d.2) (n, s1))).2
      (androidBg allOk d.1 d.2 (runCatalogFrom allOk (androidDensityTasks iconMaster d.1 d.2) (n, s2))).2 := by
  obtain ⟨hc, hsim⟩ := runCatalogFrom_sim (androidDensityTasks iconMaster d.1 d.2) n s1 s2 Rrun
    (by
      intro t ht
      fin_cases ht <;> exact (show iconMaster ∈ Rrun by decide))
    hag
  have e1 : runCatalogFrom allOk (androidDensityTasks iconMaster d.1 d.2) (n, s1) =
      ((runCatalogFrom allOk (androidDensityTasks iconMaster d.1 d.2) (n, s1)).1,
       (runCatalogFrom allOk (androidDensityTasks iconMaster d.1 d.2) (n, s1)).2) := rfl
  have e2 : runCatalogFrom allOk (androidDensityTasks iconMaster d.1 d.2) (n, s2) =
      ((runCatalogFrom allOk (androidDensityTasks iconMaster d.1 d.2) (n, s2)).1,
       (runCatalogFrom allOk (androidDensityTasks iconMaster d.1 d.2) (n, s2)).2) := rfl
  rw [e1, e2, androidBg_eq, androidBg_eq, hc]
  refine ⟨rfl, ?_⟩
  have hw := SimW_write
    ["android/app/src/main/res/mipmap-" ++ d.1 ++ "/ic_launcher_background.png"]
    (runCatalogFrom allOk (androidDensityTasks iconMaster d.1 d.2) (n, s1)).2
    (runCatalogFrom allOk (androidDensityTasks iconMaster d.1 d.2) (n, s2)).2
    ("android/app/src/main/res/mipmap-" ++ d.1 ++ "/ic_launcher_background.png")
    (File.png (Img.blankI d.2 d.2))
    (by simp)
  exact hsim.trans hw

/-- Simulation for the whole density loop of `generate_android_icons`. -/
theorem android_fold_sim (ds : List (String × ℕ)) :
    ∀ (n : ℕ) (t1 t2 : St), agreeOn Rrun t1 t2 →
    (ds.foldl (fun ns d =>
        androidBg allOk d.1 d.2 (runCatalogFrom allOk (androidDensityTasks iconMaster d.1 d.2) ns))
      (n, t1)).1 =
      (ds.foldl (fun ns d =>
          androidBg allOk d.1 d.2 (runCatalogFrom allOk (androidDensityTasks iconMaster d.1 d.2) ns))
        (n, t2)).1 ∧
    SimW (ds.flatMap (fun d =>
        (androidDensityTasks iconMaster d.1 d.2).map (fun t => t.dst) ++
        ["android/app/src/main/res/mipmap-" ++ d.1 ++ "/ic_launcher_background.png"])) t1 t2
      (ds.foldl (fun ns d =>
          androidBg allOk d.1 d.2 (runCatalogFrom allOk (androidDensityTasks iconMaster d.1 d.2) ns))
        (n, t1)).2
      (ds.foldl (fun ns d =>
          androidBg allOk d.1 d.2 (runCatalogFrom allOk (androidDensityTasks iconMaster d.1 d.2) ns))
        (n, t2)).2 := by
  induction ds with
  | nil =>
    intro n t1 t2 hag
    exact ⟨rfl, SimW_id _ _ _⟩
  | cons d rest ih =>
    intro n t1 t2 hag
    obtain ⟨hc, hsim⟩ := androidDensity_sim d n t1 t2 hag
    have hstep1 : (d :: rest).foldl (fun ns d =>
        androidBg allOk d.1 d.2 (runCatalogFrom allOk (androidDensityTasks iconMaster d.1 d.2) ns))
        (n, t1) =
      rest.foldl (fun ns d =>
        androidBg allOk d.1 d.2 (runCatalogFrom allOk (androidDensityTasks iconMaster d.1 d.2) ns))
        (androidBg allOk d.1 d.2 (runCatalogFrom allOk (androidDensityTasks iconMaster d.1 d.2) (n, t1))) := rfl
    have hstep2 : (d :: rest).foldl (fun ns d =>
        androidBg allOk d.1 d.2 (runCatalogFrom allOk (androidDensityTasks iconMaster d.1 d.2) ns))
        (n, t2) =
      rest.foldl (fun ns d =>
        androidBg allOk d.1 d.2 (runCatalogFrom allOk (androidDensityTasks iconMaster d.1 d.2) ns))
        (androidBg allOk d.1 d.2 (runCatalogFrom allOk (androidDensityTasks iconMaster d.1 d.2) (n, t2))) := rfl
    have heta1 : androidBg allOk d.1 d.2 (runCatalogFrom allOk (androidDensityTasks iconMaster d.1 d.2) (n, t1)) =
        ((androidBg allOk d.1 d.2 (runCatalogFrom allOk (androidDensityTasks iconMaster d.1 d.2) (n, t2))).1,
         (androidBg allOk d.1 d.2 (runCatalogFrom allOk (androidDensityTasks iconMaster d.1 d.2) (n, t1))).2) := by
      rw [← hc]
    have heta2 : androidBg allOk d.1 d.2 (runCatalogFrom allOk (androidDensityTasks iconMaster d.1 d.2) (n, t2)) =
        ((androidBg allOk d.1 d.2 (runCatalogFrom allOk (androidDensityTasks iconMaster d.1 d.2) (n, t2))).1,
         (androidBg allOk d.1 d.2 (runCatalogFrom allOk (androidDensityTasks iconMaster d.1 d.2) (n, t2))).2) := rfl
    rw [hstep1, hstep2, heta1, heta2]
    have hag2 := agreeOn_of_SimW hsim hag
    obtain ⟨hb2, hsim2⟩ := ih
      (androidBg allOk d.1 d.2 (runCatalogFrom allOk (androidDensityTasks iconMaster d.1 d.2) (n, t2))).1
      (androidBg allOk d.1 d.2 (runCatalogFrom allOk (androidDensityTasks iconMaster d.1 d.2) (n, t1))).2
      (androidBg allOk d.1 d.2 (runCatalogFrom allOk (androidDensityTasks iconMaster d.1 d.2) (n, t2))).2
      hag2
    refine ⟨hb2, ?_⟩
    have := hsim.trans hsim2
    simpa using this

theorem generate_android_icons_allOk (st : St) :
    generate_android_icons allOk iconMaster st = .ok (androidIconsOk st) := by
  unfold generate_android_icons androidIconsOk
  dsimp only
  rw [create_xmls_eq]

/-- `runCatalogFrom_sim` for two arbitrary counter/state pairs with equal
counters. -/
theorem runCatalogFrom_simP (tasks : List AssetTask) (R : List String)
    (hsrc : ∀ t ∈ tasks, t.src ∈ R) (b1 b2 : ℕ × St) (hc : b1.1 = b2.1)
    (hag : agreeOn R b1.2 b2.2) :
    (runCatalogFrom allOk tasks b1).1 = (runCatalogFrom allOk tasks b2).1 ∧
    SimW (tasks.map (fun t => t.dst)) b1.2 b2.2
      (runCatalogFrom allOk tasks b1).2 (runCatalogFrom allOk tasks b2).2 := by
  obtain ⟨n1, s1⟩ := b1
  obtain ⟨n2, s2⟩ := b2
  dsimp only at hc hag ⊢
  subst hc
  exact runCatalogFrom_sim tasks n1 s1 s2 R hsrc hag

/-- `android_fold_sim` for two arbitrary counter/state pairs with equal
counters. -/
theorem android_fold_simP (ds : List (String × ℕ)) (b1 b2 : ℕ × St) (hc : b1.1 = b2.1)
    (hag : agreeOn Rrun b1.2 b2.2) :
    (ds.foldl (fun ns d =>
        androidBg allOk d.1 d.2 (runCatalogFrom allOk (androidDensityTasks iconMaster d.1 d.2) ns))
      b1).1 =
      (ds.foldl (fun ns d =>
          androidBg allOk d.1 d.2 (runCatalogFrom allOk (androidDensityTasks iconMaster d.1 d.2) ns))
        b2).1 ∧
    SimW (ds.flatMap (fun d =>
        (androidDensityTasks iconMaster d.1 d.2).map (fun t => t.dst) ++
        ["android/app/src/main/res/mipmap-" ++ d.1 ++ "/ic_launcher_background.png"])) b1.2 b2.2
      (ds.foldl (fun ns d =>
          androidBg allOk d.1 d.2 (runCatalogFrom allOk (androidDensityTasks iconMaster d.1 d.2) ns))
        b1).2
      (ds.foldl (fun ns d =>
          androidBg allOk d.1 d.2 (runCatalogFrom allOk (androidDensityTasks iconMaster d.1 d.2) ns))
        b2).2 := by
  obtain ⟨n1, s1⟩ := b1
  obtain ⟨n2, s2⟩ := b2
  dsimp only at hc hag ⊢
  subst hc
  exact android_fold_sim ds n1 s1 s2 hag

theorem androidIconsOk_sim (t1 t2 : St) (hag : agreeOn Rrun t1 t2) :
    (androidIconsOk t1).1 = (androidIconsOk t2).1 ∧
    SimW androidDsts t1 t2 (androidIconsOk t1).2 (androidIconsOk t2).2 := by
  obtain ⟨hcf, hsimf⟩ := android_fold_simP android_densities (0, t1) (0, t2) rfl hag
  have hP := runCatalogFrom_simP [AssetTask.mk iconMaster "android/app/src/main/res/mipmap-xxxhdpi/ic_launcher_playstore.png" (some ⟨512, 512⟩) true false] Rrun
    (by intro u hu; fin_cases hu; exact (show iconMaster ∈ Rrun by decide))
    (android_densities.foldl (fun ns d =>
        androidBg allOk d.1 d.2 (runCatalogFrom allOk (androidDensityTasks iconMaster d.1 d.2) ns))
      (0, t1))
    (android_densities.foldl (fun ns d =>
        androidBg allOk d.1 d.2 (runCatalogFrom allOk (androidDensityTasks iconMaster d.1 d.2) ns))
      (0, t2))
  obtain ⟨hcp, hsimP⟩ := hP hcf (agreeOn_of_SimW hsimf hag)
  dsimp only [androidIconsOk]
  refine ⟨by rw [hcp], ?_⟩
  exact hsimf.trans (hsimP.trans
    ((SimW_write [xmlPath1] _ _ xmlPath1 (File.xmlF adaptiveIconXml) (by simp)).trans
     (SimW_write [xmlPath2] _ _ xmlPath2 (File.xmlF adaptiveIconXml) (by simp))))

theorem generate_web_logos_eq (env : Env) (lmp : String) (s : St) :
    generate_web_logos env lmp s =
      copyStep env (iconVariantsStep env (runCatalog env (webLogoVariants lmp) s)) := rfl

theorem iconVariantsStep_sim (b1 b2 : ℕ × St) (hc : b1.1 = b2.1)
    (hag : agreeOn Rrun b1.2 b2.2) :
    (iconVariantsStep allOk b1).1 = (iconVariantsStep allOk b2).1 ∧
    SimW (webIconVariants.map (fun t => t.dst)) b1.2 b2.2
      (iconVariantsStep allOk b1).2 (iconVariantsStep allOk b2).2 := by
  obtain ⟨n1, s1⟩ := b1
  obtain ⟨n2, s2⟩ := b2
  dsimp only at hc hag ⊢
  subst hc
  unfold iconVariantsStep
  dsimp only
  have hex : s1.existsP iconMaster = s2.existsP iconMaster := by
    unfold St.existsP
    rw [hag iconMaster (by decide)]
  rw [hex]
  cases he : s2.existsP iconMaster with
  | true =>
    exact runCatalogFrom_sim webIconVariants n1 s1 s2 Rrun (by decide) hag
  | false =>
    exact ⟨rfl, SimW_log _ _ _ _ _⟩

theorem copyStep_sim (b1 b2 : ℕ × St) (hc : b1.1 = b2.1)
    (h : b1.2.read "public/icons/icon-192x192.png" =
         b2.2.read "public/icons/icon-192x192.png") :
    (copyStep allOk b1).1 = (copyStep allOk b2).1 ∧
    SimW ["client/src/assets/icon-192x192.png"] b1.2 b2.2
      (copyStep allOk b1).2 (copyStep allOk b2).2 := by
  obtain ⟨n1, s1⟩ := b1
  obtain ⟨n2, s2⟩ := b2
  dsimp only at hc h ⊢
  subst hc
  unfold copyStep
  dsimp only
  rw [h]
  cases hv : s2.read "public/icons/icon-192x192.png" with
  | none => exact ⟨rfl, SimW_id _ _ _⟩
  | some f =>
    exact ⟨rfl, SimW_write _ _ _ _ _ (by simp)⟩

theorem web_logos_sim (t1 t2 : St) (hag : agreeOn Rrun t1 t2) :
    (generate_web_logos allOk logoMaster t1).1 = (generate_web_logos allOk logoMaster t2).1 ∧
    SimW ((webLogoVariants logoMaster).map (fun t => t.dst) ++
        (webIconVariants.map (fun t => t.dst) ++ ["client/src/assets/icon-192x192.png"])) t1 t2
      (generate_web_logos allOk logoMaster t1).2 (generate_web_logos allOk logoMaster t2).2 := by
  have hA := runCatalogFrom_simP (webLogoVariants logoMaster) Rrun (by decide) (0, t1) (0, t2)
  obtain ⟨hcA, hsimA⟩ := hA rfl hag
  have hagA := agreeOn_of_SimW hsimA hag
  have hB := iconVariantsStep_sim
    (runCatalogFrom allOk (webLogoVariants logoMaster) (0, t1))
    (runCatalogFrom allOk (webLogoVariants logoMaster) (0, t2))
  obtain ⟨hcB, hsimB⟩ := hB hcA hagA
  have hagB := agreeOn_of_SimW hsimB hagA
  have hC := copyStep_sim
    (iconVariantsStep allOk (runCatalogFrom allOk (webLogoVariants logoMaster) (0, t1)))
    (iconVariantsStep allOk (runCatalogFrom allOk (webLogoVariants logoMaster) (0, t2)))
  obtain ⟨hcC, hsimC⟩ := hC hcB (hagB icon192Path (by decide))
  rw [generate_web_logos_eq allOk logoMaster t1, generate_web_logos_eq allOk logoMaster t2]
  exact ⟨hcC, hsimA.trans (hsimB.trans hsimC)⟩

theorem android_splash_icons_sim (t1 t2 : St) (hag : agreeOn Rrun t1 t2) :
    (generate_android_splash_icons allOk t1).1 = (generate_android_splash_icons allOk t2).1 ∧
    SimW (splashIconTasks.map (fun t => t.dst)) t1 t2
      (generate_android_splash_icons allOk t1).2 (generate_android_splash_icons allOk t2).2 := by
  unfold generate_android_splash_icons
  have hex : t1.existsP splashIconMaster = t2.existsP splashIconMaster := by
    unfold St.existsP
    rw [hag splashIconMaster (by decide)]
  rw [hex]
  cases he : t2.existsP splashIconMaster with
  | true =>
    exact runCatalogFrom_sim splashIconTasks 0 t1 t2 Rrun (by decide) hag
  | false =>
    exact ⟨rfl, SimW_log _ _ _ _ _⟩

theorem splash_sim (t1 t2 : St) (hag : agreeOn Rrun t1 t2) :
    (generate_splash_screens allOk t1).1 = (generate_splash_screens allOk t2).1 ∧
    SimW (splashTasks.map (fun t => t.dst) ++ splashIconTasks.map (fun t => t.dst)) t1 t2
      (generate_splash_screens allOk t1).2 (generate_splash_screens allOk t2).2 := by
  unfold generate_splash_screens
  have hfind : [splashSquareMaster, splashPortraitMaster, splashLandscapeMaster].find?
      (fun p => !(t1.existsP p)) =
      [splashSquareMaster, splashPortraitMaster, splashLandscapeMaster].find?
      (fun p => !(t2.existsP p)) := by
    apply find?_congrP
    intro p hp
    have hr : t1.read p = t2.read p := by
      apply hag p
      fin_cases hp <;> decide
    unfold St.existsP
    rw [hr]
  rw [hfind]
  cases hf : [splashSquareMaster, splashPortraitMaster, splashLandscapeMaster].find?
      (fun p => !(t2.existsP p)) with
  | some p => exact ⟨rfl, SimW_log _ _ _ _ _⟩
  | none =>
    dsimp only
    rw [show runCatalog allOk splashTasks t1 = runCatalogFrom allOk splashTasks (0, t1) from rfl,
        show runCatalog allOk splashTasks t2 = runCatalogFrom allOk splashTasks (0, t2) from rfl]
    have hA := runCatalogFrom_simP splashTasks Rrun (by decide) (0, t1) (0, t2)
    obtain ⟨hcA, hsimA⟩ := hA rfl hag
    have hagA := agreeOn_of_SimW hsimA hag
    obtain ⟨hcB, hsimB⟩ := android_splash_icons_sim
      (runCatalogFrom allOk splashTasks (0, t1)).2
      (runCatalogFrom allOk splashTasks (0, t2)).2 hagA
    constructor
    · rw [hcA, hcB]
    · exact hsimA.trans hsimB

theorem web_icons_sim (t1 t2 : St) (hag : agreeOn masterImagePaths t1 t2) :
    (generate_web_icons allOk iconMaster t1).1 = (generate_web_icons allOk iconMaster t2).1 ∧
    SimW ((webIconTasks iconMaster).map (fun t => t.dst)) t1 t2
      (generate_web_icons allOk iconMaster t1).2 (generate_web_icons allOk iconMaster t2).2 := by
  unfold generate_web_icons runCatalog
  exact runCatalogFrom_sim (webIconTasks iconMaster) 0 t1 t2 masterImagePaths (by decide) hag

theorem web_logos_inv_sim (t1 t2 : St) (hag : agreeOn Rrun t1 t2) :
    (generate_web_logos_inverted allOk logoInvMaster t1).1 =
      (generate_web_logos_inverted allOk logoInvMaster t2).1 ∧
    SimW (([⟨logoInvMaster, "public/icons/logo-inverted.png", some ⟨120, 32⟩, true, false⟩,
      ⟨logoInvMaster, "client/src/assets/logo-inverted.png", some ⟨120, 32⟩, true, false⟩,
      ⟨logoInvMaster, "client/src/assets/logo-inverted@2x.png", some ⟨240, 64⟩, true, false⟩,
      ⟨logoInvMaster, "client/src/assets/logo-inverted@3x.png", some ⟨360, 96⟩, true, false⟩] :
        List AssetTask).map (fun t => t.dst)) t1 t2
      (generate_web_logos_inverted allOk logoInvMaster t1).2
      (generate_web_logos_inverted allOk logoInvMaster t2).2 := by
  unfold generate_web_logos_inverted runCatalog
  exact runCatalogFrom_sim _ 0 t1 t2 Rrun (by decide) hag

theorem ios_icons_sim (t1 t2 : St) (hag : agreeOn Rrun t1 t2) :
    (generate_ios_icons allOk iconMaster t1).1 = (generate_ios_icons allOk iconMaster t2).1 ∧
    SimW ((iosIconTasks iconMaster).map (fun t => t.dst)) t1 t2
      (generate_ios_icons allOk iconMaster t1).2 (generate_ios_icons allOk iconMaster t2).2 := by
  unfold generate_ios_icons runCatalog
  exact runCatalogFrom_sim (iosIconTasks iconMaster) 0 t1 t2 Rrun (by decide) hag

theorem ios_logos_sim (t1 t2 : St) (hag : agreeOn Rrun t1 t2) :
    (generate_ios_logos allOk logoMaster t1).1 = (generate_ios_logos allOk logoMaster t2).1 ∧
    SimW ((iosLogoTasks logoMaster "ios/App/App/Assets.xcassets/Logo.imageset" "logo").map
        (fun t => t.dst)) t1 t2
      (generate_ios_logos allOk logoMaster t1).2 (generate_ios_logos allOk logoMaster t2).2 := by
  unfold generate_ios_logos runCatalog
  exact runCatalogFrom_sim _ 0 t1 t2 Rrun (by decide) hag

theorem ios_logos_inv_sim (t1 t2 : St) (hag : agreeOn Rrun t1 t2) :
    (generate_ios_logos_inverted allOk logoInvMaster t1).1 =
      (generate_ios_logos_inverted allOk logoInvMaster t2).1 ∧
    SimW ((iosLogoTasks logoInvMaster "ios/App/App/Assets.xcassets/LogoInverted.imageset"
        "logo-inverted").map (fun t => t.dst)) t1 t2
      (generate_ios_logos_inverted allOk logoInvMaster t1).2
      (generate_ios_logos_inverted allOk logoInvMaster t2).2 := by
  unfold generate_ios_logos_inverted runCatalog
  exact runCatalogFrom_sim _ 0 t1 t2 Rrun (by decide) hag

theorem android_logos_sim (t1 t2 : St) (hag : agreeOn Rrun t1 t2) :
    (generate_android_logos allOk logoMaster t1).1 = (generate_android_logos allOk logoMaster t2).1 ∧
    SimW ((androidLogoTasks logoMaster "logo.png").map (fun t => t.dst)) t1 t2
      (generate_android_logos allOk logoMaster t1).2 (generate_android_logos allOk logoMaster t2).2 := by
  unfold generate_android_logos runCatalog
  exact runCatalogFrom_sim _ 0 t1 t2 Rrun (by decide) hag

theorem android_logos_inv_sim (t1 t2 : St) (hag : agreeOn Rrun t1 t2) :
    (generate_android_logos_inverted allOk logoInvMaster t1).1 =
      (generate_android_logos_inverted allOk logoInvMaster t2).1 ∧
    SimW ((androidLogoTasks logoInvMaster "logo-inverted.png").map (fun t => t.dst)) t1 t2
      (generate_android_logos_inverted allOk logoInvMaster t1).2
      (generate_android_logos_inverted allOk logoInvMaster t2).2 := by
  unfold generate_android_logos_inverted runCatalog
  exact runCatalogFrom_sim _ 0 t1 t2 Rrun (by decide) hag

theorem contentsOk_sim (t1 t2 : St) :
    SimW ([contentsPath1] ++ [contentsPath2]) t1 t2 (contentsOk t1) (contentsOk t2) :=
  (SimW_write [contentsPath1] t1 t2 contentsPath1 (File.jsonF appiconContents) (by simp)).trans
    (SimW_write [contentsPath2] _ _ contentsPath2 (File.jsonF splashContents) (by simp))

theorem create_contents_contentsOk (st : St) :
    create_ios_contents_json allOk st = .ok (contentsOk st) := rfl

theorem mainPipeline_allOk (st : St) :
    mainPipeline allOk st = .ok (.done (pipeOk st).1, (pipeOk st).2) := by
  unfold mainPipeline pipeOk
  dsimp only
  rw [generate_android_icons_allOk]
  dsimp only
  rw [create_contents_contentsOk]

/-- The pipeline behaves identically from the pristine state of a first
run and from any state that agrees on the masters and already carries the
(idempotent) effects of a previous run on the 192×192 icon and the web
manifest: both runs append the same write log, place the same number of
assets, and the first run's final state shows the icon and manifest
effects. -/
theorem pipeOk_sim (s1 s2 : St)
    (hagM : agreeOn masterImagePaths s1 s2)
    (h192 : s2.read icon192Path = s1.read icon192Path ∨
      s2.read icon192Path = icon192After (s1.read iconMaster) (s1.read icon192Path))
    (hman : s2.read manifestPath = s1.read manifestPath ∨
      s2.read manifestPath = manifestAfter (s1.read manifestPath)) :
    (pipeOk s1).1 = (pipeOk s2).1 ∧
    SimW pipeDsts s1 s2 (pipeOk s1).2 (pipeOk s2).2 ∧
    (pipeOk s1).2.read icon192Path =
      icon192After (s1.read iconMaster) (s1.read icon192Path) ∧
    (pipeOk s1).2.read manifestPath = manifestAfter (s1.read manifestPath) := by
  obtain ⟨hc1, hs1⟩ := web_icons_sim s1 s2 hagM
  have e192a : (generate_web_icons allOk iconMaster s1).2.read icon192Path =
      icon192After (s1.read iconMaster) (s1.read icon192Path) := web_icons_icon192 s1
  have e192b : (generate_web_icons allOk iconMaster s2).2.read icon192Path =
      icon192After (s2.read iconMaster) (s2.read icon192Path) := web_icons_icon192 s2
  have hiM : s2.read iconMaster = s1.read iconMaster := (hagM iconMaster (by decide)).symm
  have h192eq : (generate_web_icons allOk iconMaster s1).2.read icon192Path = (generate_web_icons allOk iconMaster s2).2.read icon192Path := by
    rw [e192a, e192b, hiM]
    rcases h192 with h | h
    · rw [h]
    · rw [h, icon192After_idem]
  have hagMasters1 : agreeOn masterImagePaths (generate_web_icons allOk iconMaster s1).2 (generate_web_icons allOk iconMaster s2).2 := agreeOn_of_SimW hs1 hagM
  have hag1 : agreeOn Rrun (generate_web_icons allOk iconMaster s1).2 (generate_web_icons allOk iconMaster s2).2 := by
    intro p hp
    have hp2 : p ∈ masterImagePaths ++ [icon192Path] := hp
    rcases List.mem_append.mp hp2 with h | h
    · exact hagMasters1 p h
    · have hpe := List.mem_singleton.mp h
      subst hpe
      exact h192eq
  have w2 := web_logos_sim (generate_web_icons allOk iconMaster s1).2 (generate_web_icons allOk iconMaster s2).2
  obtain ⟨hc2, hs2⟩ := w2 hag1
  have hag2 := agreeOn_of_SimW hs2 hag1
  have w3 := web_logos_inv_sim (generate_web_logos allOk logoMaster (generate_web_icons allOk iconMaster s1).2).2 (generate_web_logos allOk logoMaster (generate_web_icons allOk iconMaster s2).2).2
  obtain ⟨hc3, hs3⟩ := w3 hag2
  have hag3 := agreeOn_of_SimW hs3 hag2
  have w4 := ios_icons_sim (generate_web_logos_inverted allOk logoInvMaster (generate_web_logos allOk logoMaster (generate_web_icons allOk iconMaster s1).2).2).2 (generate_web_logos_inverted allOk logoInvMaster (generate_web_logos allOk logoMaster (generate_web_icons allOk iconMaster s2).2).2).2
  obtain ⟨hc4, hs4⟩ := w4 hag3
  have hag4 := agreeOn_of_SimW hs4 hag3
  have w5 := ios_logos_sim (generate_ios_icons allOk iconMaster (generate_web_logos_inverted allOk logoInvMaster (generate_web_logos allOk logoMaster (generate_web_icons allOk iconMaster s1).2).2).2).2 (generate_ios_icons allOk iconMaster (generate_web_logos_inverted allOk logoInvMaster (generate_web_logos allOk logoMaster (generate_web_icons allOk iconMaster s2).2).2).2).2
  obtain ⟨hc5, hs5⟩ := w5 hag4
  have hag5 := agreeOn_of_SimW hs5 hag4
  have w6 := ios_logos_inv_sim (generate_ios_logos allOk logoMaster (generate_ios_icons allOk iconMaster (generate_web_logos_inverted allOk logoInvMaster (generate_web_logos allOk logoMaster (generate_web_icons allOk iconMaster s1).2).2).2).2).2 (generate_ios_logos allOk logoMaster (generate_ios_icons allOk iconMaster (generate_web_logos_inverted allOk logoInvMaster (generate_web_logos allOk logoMaster (generate_web_icons allOk iconMaster s2).2).2).2).2).2
  obtain ⟨hc6, hs6⟩ := w6 hag5
  have hag6 := agreeOn_of_SimW hs6 hag5
  have w7 := androidIconsOk_sim (generate_ios_logos_inverted allOk logoInvMaster (generate_ios_logos allOk logoMaster (generate_ios_icons allOk iconMaster (generate_web_logos_inverted allOk logoInvMaster (generate_web_logos allOk logoMaster (generate_web_icons allOk iconMaster s1).2).2).2).2).2).2 (generate_ios_logos_inverted allOk logoInvMaster (generate_ios_logos allOk logoMaster (generate_ios_icons allOk iconMaster (generate_web_logos_inverted allOk logoInvMaster (generate_web_logos allOk logoMaster (generate_web_icons allOk iconMaster s2).2).2).2).2).2).2
  obtain ⟨hc7, hs7⟩ := w7 hag6
  have hag7 := agreeOn_of_SimW hs7 hag6
  have w8 := android_logos_sim (androidIconsOk (generate_ios_logos_inverted allOk logoInvMaster (generate_ios_logos allOk logoMaster (generate_ios_icons allOk iconMaster (generate_web_logos_inverted allOk logoInvMaster (generate_web_logos allOk logoMaster (generate_web_icons allOk iconMaster s1).2).2).2).2).2).2).2 (androidIconsOk (generate_ios_logos_inverted allOk logoInvMaster (generate_ios_logos allOk logoMaster (generate_ios_icons allOk iconMaster (generate_web_logos_inverted allOk logoInvMaster (generate_web_logos allOk logoMaster (generate_web_icons allOk iconMaster s2).2).2).2).2).2).2).2
  obtain ⟨hc8, hs8⟩ := w8 hag7
  have hag8 := agreeOn_of_SimW hs8 hag7
  have w9 := android_logos_inv_sim (generate_android_logos allOk logoMaster (androidIconsOk (generate_ios_logos_inverted allOk logoInvMaster (generate_ios_logos allOk logoMaster (generate_ios_icons allOk iconMaster (generate_web_logos_inverted allOk logoInvMaster (generate_web_logos allOk logoMaster (generate_web_icons allOk iconMaster s1).2).2).2).2).2).2).2).2 (generate_android_logos allOk logoMaster (androidIconsOk (generate_ios_logos_inverted allOk logoInvMaster (generate_ios_logos allOk logoMaster (generate_ios_icons allOk iconMaster (generate_web_logos_inverted allOk logoInvMaster (generate_web_logos allOk logoMaster (generate_web_icons allOk iconMaster s2).2).2).2).2).2).2).2).2
  obtain ⟨hc9, hs9⟩ := w9 hag8
  have hag9 := agreeOn_of_SimW hs9 hag8
  have w10 := splash_sim (generate_android_logos_inverted allOk logoInvMaster (generate_android_logos allOk logoMaster (androidIconsOk (generate_ios_logos_inverted allOk logoInvMaster (generate_ios_logos allOk logoMaster (generate_ios_icons allOk iconMaster (generate_web_logos_inverted allOk logoInvMaster (generate_web_logos allOk logoMaster (generate_web_icons allOk iconMaster s1).2).2).2).2).2).2).2).2).2 (generate_android_logos_inverted allOk logoInvMaster (generate_android_logos allOk logoMaster (androidIconsOk (generate_ios_logos_inverted allOk logoInvMaster (generate_ios_logos allOk logoMaster (generate_ios_icons allOk iconMaster (generate_web_logos_inverted allOk logoInvMaster (generate_web_logos allOk logoMaster (generate_web_icons allOk iconMaster s2).2).2).2).2).2).2).2).2).2
  obtain ⟨hc10, hs10⟩ := w10 hag9
  have hs11 := contentsOk_sim (generate_splash_screens allOk (generate_android_logos_inverted allOk logoInvMaster (generate_android_logos allOk logoMaster (androidIconsOk (generate_ios_logos_inverted allOk logoInvMaster (generate_ios_logos allOk logoMaster (generate_ios_icons allOk iconMaster (generate_web_logos_inverted allOk logoInvMaster (generate_web_logos allOk logoMaster (generate_web_icons allOk iconMaster s1).2).2).2).2).2).2).2).2).2).2 (generate_splash_screens allOk (generate_android_logos_inverted allOk logoInvMaster (generate_android_logos allOk logoMaster (androidIconsOk (generate_ios_logos_inverted allOk logoInvMaster (generate_ios_logos allOk logoMaster (generate_ios_icons allOk iconMaster (generate_web_logos_inverted allOk logoInvMaster (generate_web_logos allOk logoMaster (generate_web_icons allOk iconMaster s2).2).2).2).2).2).2).2).2).2).2
  have chainA := hs1.trans (hs2.trans (hs3.trans (hs4.trans (hs5.trans (hs6.trans
    (hs7.trans (hs8.trans (hs9.trans (hs10.trans hs11)))))))))
  have hmm := read_SimW_not_mem chainA manifestPath (by decide)
  have hd : (contentsOk (generate_splash_screens allOk (generate_android_logos_inverted allOk logoInvMaster (generate_android_logos allOk logoMaster (androidIconsOk (generate_ios_logos_inverted allOk logoInvMaster (generate_ios_logos allOk logoMaster (generate_ios_icons allOk iconMaster (generate_web_logos_inverted allOk logoInvMaster (generate_web_logos allOk logoMaster (generate_web_icons allOk iconMaster s2).2).2).2).2).2).2).2).2).2).2).read manifestPath = (contentsOk (generate_splash_screens allOk (generate_android_logos_inverted allOk logoInvMaster (generate_android_logos allOk logoMaster (androidIconsOk (generate_ios_logos_inverted allOk logoInvMaster (generate_ios_logos allOk logoMaster (generate_ios_icons allOk iconMaster (generate_web_logos_inverted allOk logoInvMaster (generate_web_logos allOk logoMaster (generate_web_icons allOk iconMaster s1).2).2).2).2).2).2).2).2).2).2).read manifestPath ∨
      (contentsOk (generate_splash_screens allOk (generate_android_logos_inverted allOk logoInvMaster (generate_android_logos allOk logoMaster (androidIconsOk (generate_ios_logos_inverted allOk logoInvMaster (generate_ios_logos allOk logoMaster (generate_ios_icons allOk iconMaster (generate_web_logos_inverted allOk logoInvMaster (generate_web_logos allOk logoMaster (generate_web_icons allOk iconMaster s2).2).2).2).2).2).2).2).2).2).2).read manifestPath = manifestAfter ((contentsOk (generate_splash_screens allOk (generate_android_logos_inverted allOk logoInvMaster (generate_android_logos allOk logoMaster (androidIconsOk (generate_ios_logos_inverted allOk logoInvMaster (generate_ios_logos allOk logoMaster (generate_ios_icons allOk iconMaster (generate_web_logos_inverted allOk logoInvMaster (generate_web_logos allOk logoMaster (generate_web_icons allOk iconMaster s1).2).2).2).2).2).2).2).2).2).2).read manifestPath) := by
    rw [hmm.1, hmm.2]
    exact hman
  have w12 := manifest_sim (contentsOk (generate_splash_screens allOk (generate_android_logos_inverted allOk logoInvMaster (generate_android_logos allOk logoMaster (androidIconsOk (generate_ios_logos_inverted allOk logoInvMaster (generate_ios_logos allOk logoMaster (generate_ios_icons allOk iconMaster (generate_web_logos_inverted allOk logoInvMaster (generate_web_logos allOk logoMaster (generate_web_icons allOk iconMaster s1).2).2).2).2).2).2).2).2).2).2) (contentsOk (generate_splash_screens allOk (generate_android_logos_inverted allOk logoInvMaster (generate_android_logos allOk logoMaster (androidIconsOk (generate_ios_logos_inverted allOk logoInvMaster (generate_ios_logos allOk logoMaster (generate_ios_icons allOk iconMaster (generate_web_logos_inverted allOk logoInvMaster (generate_web_logos allOk logoMaster (generate_web_icons allOk iconMaster s2).2).2).2).2).2).2).2).2).2).2)
  have hs12 := w12 hd
  have chainB := hs2.trans (hs3.trans (hs4.trans (hs5.trans (hs6.trans (hs7.trans
    (hs8.trans (hs9.trans (hs10.trans (hs11.trans hs12)))))))))
  have hi := read_SimW_not_mem chainB icon192Path (by decide)
  dsimp only [pipeOk]
  refine ⟨?_, ?_, ?_, ?_⟩
  · omega
  · exact hs1.trans (hs2.trans (hs3.trans (hs4.trans (hs5.trans (hs6.trans (hs7.trans
      (hs8.trans (hs9.trans (hs10.trans (hs11.trans hs12))))))))))
  · rw [hi.1]
    exact e192a
  · rw [manifest_after_read, hmm.1]

theorem filter_congrP {α : Type} (l : List α) (p q : α → Bool)
    (h : ∀ a ∈ l, p a = q a) : l.filter p = l.filter q := by
  induction l with
  | nil => rfl
  | cons a t ih =>
    rw [List.filter_cons, List.filter_cons, h a (List.mem_cons_self a t),
      ih (fun u hu => h u (List.mem_cons_of_mem a hu))]

/-- C9: running the full catalog run twice in succession over identical
master inputs produces, on the second run, a write log — paths and file
contents — byte-identical to the first run's: a second `mainRun` over the
filesystem left by a first run repeats exactly the same writes, with no
drift and no cleanup required. -/
theorem claim_C9 (fs : FS) :
    mainWrites allOk (mainFS allOk fs) = mainWrites allOk fs := by
  by_cases hM : masterImagePaths.filter (fun p => !(St.existsP ⟨fs, [], []⟩ p)) = []
  · have hrun1 : mainRun allOk fs =
        .ok (.done (pipeOk ⟨fs, [], []⟩).1, (pipeOk ⟨fs, [], []⟩).2) := by
      unfold mainRun
      dsimp only
      rw [if_pos hM]
      exact mainPipeline_allOk ⟨fs, [], []⟩
    obtain ⟨hcS, simS, self192, selfMan⟩ :=
      pipeOk_sim ⟨fs, [], []⟩ ⟨fs, [], []⟩ (fun p _ => rfl) (Or.inl rfl) (Or.inl rfl)
    have hfs2 : mainFS allOk fs = fun p => (pipeOk ⟨fs, [], []⟩).2.read p := by
      unfold mainFS
      rw [hrun1]
    have hreads : ∀ p, (St.mk (mainFS allOk fs) [] []).read p =
        (pipeOk ⟨fs, [], []⟩).2.read p := fun p => congrFun hfs2 p
    have hnd : ∀ p ∈ masterImagePaths, p ∉ pipeDsts := by decide
    have hmst : ∀ p ∈ masterImagePaths,
        (pipeOk ⟨fs, [], []⟩).2.read p = (St.mk fs [] []).read p := by
      intro p hp
      exact (read_SimW_not_mem simS p (hnd p hp)).1
    have hfilter : masterImagePaths.filter (fun p => !(St.existsP ⟨mainFS allOk fs, [], []⟩ p)) =
        masterImagePaths.filter (fun p => !(St.existsP ⟨fs, [], []⟩ p)) := by
      apply filter_congrP
      intro p hp
      unfold St.existsP
      rw [hreads p, hmst p hp]
    have hrun2 : mainRun allOk (mainFS allOk fs) =
        .ok (.done (pipeOk ⟨mainFS allOk fs, [], []⟩).1,
          (pipeOk ⟨mainFS allOk fs, [], []⟩).2) := by
      unfold mainRun
      dsimp only
      rw [hfilter, if_pos hM]
      exact mainPipeline_allOk ⟨mainFS allOk fs, [], []⟩
    have hagM2 : agreeOn masterImagePaths (⟨fs, [], []⟩ : St) (⟨mainFS allOk fs, [], []⟩ : St) := by
      intro p hp
      exact ((hreads p).trans (hmst p hp)).symm
    have h192b : (⟨mainFS allOk fs, [], []⟩ : St).read icon192Path =
        icon192After ((⟨fs, [], []⟩ : St).read iconMaster)
          ((⟨fs, [], []⟩ : St).read icon192Path) :=
      (hreads icon192Path).trans self192
    have hmanb : (⟨mainFS allOk fs, [], []⟩ : St).read manifestPath =
        manifestAfter ((⟨fs, [], []⟩ : St).read manifestPath) :=
      (hreads manifestPath).trans selfMan
    have hP := pipeOk_sim ⟨fs, [], []⟩ ⟨mainFS allOk fs, [], []⟩
    obtain ⟨hcB, simB, e1B, e2B⟩ := hP hagM2 (Or.inr h192b) (Or.inr hmanb)
    unfold mainWrites
    rw [hrun1, hrun2]
    dsimp only
    obtain ⟨W, w1, w2, hWd, hb1, hb2⟩ := simB
    rw [w1, w2]
  · have hrun1 : mainRun allOk fs = .ok (.exitFail,
        (⟨fs, [], []⟩ : St).logMsg (.missingMasters
          (masterImagePaths.filter (fun p => !(St.existsP ⟨fs, [], []⟩ p))))) := by
      unfold mainRun
      dsimp only
      rw [if_neg hM]
    have hfs2 : mainFS allOk fs = fun p =>
        ((⟨fs, [], []⟩ : St).logMsg (.missingMasters
          (masterImagePaths.filter (fun p => !(St.existsP ⟨fs, [], []⟩ p))))).read p := by
      unfold mainFS
      rw [hrun1]
    have hreads : ∀ p, (St.mk (mainFS allOk fs) [] []).read p = (St.mk fs [] []).read p := by
      intro p
      exact (congrFun hfs2 p).trans (St.read_logMsg _ _ p)
    have hfilter : masterImagePaths.filter (fun p => !(St.existsP ⟨mainFS allOk fs, [], []⟩ p)) =
        masterImagePaths.filter (fun p => !(St.existsP ⟨fs, [], []⟩ p)) := by
      apply filter_congrP
      intro p hp
      unfold St.existsP
      rw [hreads p]
    have hrun2 : mainRun allOk (mainFS allOk fs) = .ok (.exitFail,
        (⟨mainFS allOk fs, [], []⟩ : St).logMsg (.missingMasters
          (masterImagePaths.filter (fun p => !(St.existsP ⟨fs, [], []⟩ p))))) := by
      unfold mainRun
      dsimp only
      rw [hfilter, if_neg hM]
    unfold mainWrites
    rw [hrun1, hrun2]
    rfl
